import Mathlib

/-!
# Session authentication gate of gophish (security-enhanced): model and properties

Shallow embedding of
* `auth/auth.go` (`CheckPasswordPolicy`, `ValidatePassword`, `GeneratePasswordHash`,
  `ValidatePasswordChange`),
* `middleware/session.go` (`SessionTimeout`, `InvalidateSession`, `IsSessionInvalidated`),
* `middleware/middleware.go` (`GetContext`, `RequireAPIKey`, `RequireLogin`,
  `EnforceViewOnly`, `RequirePermission`, `JSONError`),
* `middleware/session_test_helper.go` (`GetSessionTimeout`, `IsTestMode`).

Conventions of the embedding.
* Go `time.Time` instants and `time.Duration` values are integers counting nanoseconds.
  A handler (or a critical section of the registry) runs at one instant `now`: every
  clock read of that call returns `now`.
* `session.Values` and the revocation map are Go maps with string keys; they are
  functions from the key to an optional value.
* A value stored in a session is dynamically typed (`interface{}`); the type assertions
  of the source are case distinctions on `Value`, and a failed single-result assertion
  is the outcome `panic`.
* The user repository (`models.GetUser`, `models.GetUserByAPIKey`, `HasPermission`), the
  session store (`Store.Get`, `Store.New`) and bcrypt are outside the package; their
  results are arguments.
-/

namespace Gophish

/-! ## Package `time` -/

/-- An instant, in nanoseconds since a fixed epoch. -/
abbrev Time := Int

/-- A Go `time.Duration`: a signed 64-bit count of nanoseconds. -/
abbrev Duration := Int

namespace time

def Nanosecond : Duration := 1
def Microsecond : Duration := 1000 * Nanosecond
def Millisecond : Duration := 1000 * Microsecond
def Second : Duration := 1000 * Millisecond
def Minute : Duration := 60 * Second
def Hour : Duration := 60 * Minute

def minDuration : Duration := -(2 ^ 63)
def maxDuration : Duration := 2 ^ 63 - 1

/-- Go `t.Sub(u)`: the difference `t - u`, saturated to the range of a `Duration`. -/
def Sub (t u : Time) : Duration :=
  if t - u > maxDuration then maxDuration
  else if t - u < minDuration then minDuration
  else t - u

/-- Go `time.Since(t)`, which is `time.Now().Sub(t)`; `now` is the clock reading. -/
def Since (now t : Time) : Duration := Sub now t

/-- Go `t.Add(d)`. -/
def Add (t : Time) (d : Duration) : Time := t + d

/-- Go `t.Before(u)`: `t` is strictly earlier than `u`. -/
def Before (t u : Time) : Bool := decide (t < u)

end time

/-! ## Session values -/

/-- A dynamically typed value held in `session.Values` (Go `interface{}`).
`other` stands for a value of any type the middleware never asserts. -/
inductive Value where
  | int64 (n : Int)
  | string (s : String)
  | time (t : Time)
  | other (tag : Nat)
deriving DecidableEq, Repr

/-- The map `session.Values`, restricted to string keys. -/
abbrev ValueMap := String → Option Value

/-- Go `delete(m, k)`. -/
def ValueMap.delete (m : ValueMap) (k : String) : ValueMap :=
  fun key => if key = k then none else m key

/-- Go `m[k] = v`. -/
def ValueMap.set (m : ValueMap) (k : String) (v : Value) : ValueMap :=
  fun key => if key = k then some v else m key

/-- The empty map. -/
def ValueMap.empty : ValueMap := fun _ => none

/-- A gorilla `sessions.Session`: its values and the `MaxAge` of its options. -/
structure Session where
  Values : ValueMap
  MaxAge : Int

/-- The fields of `models.User` the middleware reads. -/
structure User where
  Id : Int
  PasswordVersion : Int
  PasswordChangeRequired : Bool
deriving DecidableEq, Repr

/-! ## Package `unicode` (Go standard library) -/

namespace unicode

/-- The range tables `Upper`, `Lower` and `Number` of Go's `unicode` package, which
decide the class of a rune above Latin-1. They are an argument of the model. -/
structure Tables where
  Upper : Char → Bool
  Lower : Char → Bool
  Number : Char → Bool

def MaxLatin1 : Nat := 0xFF

/-- Latin-1 runes whose entry in the `properties` table is an upper-case letter:
`A`-`Z`, U+00C0-U+00D6 and U+00D8-U+00DE. -/
def latin1Upper (n : Nat) : Bool :=
  (0x41 ≤ n && n ≤ 0x5A) || (0xC0 ≤ n && n ≤ 0xD6) || (0xD8 ≤ n && n ≤ 0xDE)

/-- Latin-1 runes whose entry in the `properties` table is a lower-case letter:
`a`-`z`, U+00B5, U+00DF-U+00F6 and U+00F8-U+00FF. -/
def latin1Lower (n : Nat) : Bool :=
  (0x61 ≤ n && n ≤ 0x7A) || n == 0xB5 || (0xDF ≤ n && n ≤ 0xF6) || (0xF8 ≤ n && n ≤ 0xFF)

/-- Latin-1 runes whose entry in the `properties` table is a numeral:
`0`-`9`, U+00B2, U+00B3, U+00B9 and U+00BC-U+00BE. -/
def latin1Number (n : Nat) : Bool :=
  (0x30 ≤ n && n ≤ 0x39) || n == 0xB2 || n == 0xB3 || n == 0xB9 || (0xBC ≤ n && n ≤ 0xBE)

/-- Go `unicode.IsUpper`. -/
def IsUpper (T : Tables) (r : Char) : Bool :=
  if r.toNat ≤ MaxLatin1 then latin1Upper r.toNat else T.Upper r

/-- Go `unicode.IsLower`. -/
def IsLower (T : Tables) (r : Char) : Bool :=
  if r.toNat ≤ MaxLatin1 then latin1Lower r.toNat else T.Lower r

/-- Go `unicode.IsNumber`. -/
def IsNumber (T : Tables) (r : Char) : Bool :=
  if r.toNat ≤ MaxLatin1 then latin1Number r.toNat else T.Number r

end unicode

/-- Go `strings.ContainsRune(s, r)`. -/
def strings.ContainsRune (s : String) (r : Char) : Bool := s.data.contains r

/-! ## `auth/auth.go` -/

/-- The error values declared in `auth.go`; `bcrypt` stands for an error returned by
the package `golang.org/x/crypto/bcrypt`. -/
inductive Error where
  | bcrypt (message : String)
  | ErrInvalidPassword
  | ErrPasswordMismatch
  | ErrReusedPassword
  | ErrEmptyPassword
  | ErrPasswordTooShort
  | ErrPasswordNoUppercase
  | ErrPasswordNoLowercase
  | ErrPasswordNoNumber
  | ErrPasswordNoSpecialChar
deriving DecidableEq, Repr

/-- Minimum password length: `const MinPasswordLength = 12`. -/
def MinPasswordLength : Nat := 12

/-- The special characters of `CheckPasswordPolicy`. -/
def specialChars : String := "!@#$%^&*()_+-=[]\x7b\x7d|;:,.<>?"

/-- The four flags `hasUpper`, `hasLower`, `hasNumber`, `hasSpecial`. -/
structure CheckPasswordPolicy.Flags where
  hasUpper : Bool
  hasLower : Bool
  hasNumber : Bool
  hasSpecial : Bool
deriving DecidableEq, Repr

/-- One iteration of the loop of `CheckPasswordPolicy`: the `switch` takes the first
case that holds. -/
def CheckPasswordPolicy.step (T : unicode.Tables) (f : CheckPasswordPolicy.Flags)
    (char : Char) : CheckPasswordPolicy.Flags :=
  if unicode.IsUpper T char then { f with hasUpper := true }
  else if unicode.IsLower T char then { f with hasLower := true }
  else if unicode.IsNumber T char then { f with hasNumber := true }
  else if strings.ContainsRune specialChars char then { f with hasSpecial := true }
  else f

/-- Source `CheckPasswordPolicy`; `none` is the Go `nil` error. A password is a string
of Unicode characters: `len(password)` is its length in bytes of UTF-8 and the loop
ranges over its characters. -/
def CheckPasswordPolicy (T : unicode.Tables) (password : String) : Option Error :=
  if password = "" then some Error.ErrEmptyPassword
  else if password.utf8ByteSize < MinPasswordLength then some Error.ErrPasswordTooShort
  else
    let f := password.data.foldl (CheckPasswordPolicy.step T) ⟨false, false, false, false⟩
    if !f.hasUpper then some Error.ErrPasswordNoUppercase
    else if !f.hasLower then some Error.ErrPasswordNoLowercase
    else if !f.hasNumber then some Error.ErrPasswordNoNumber
    else if !f.hasSpecial then some Error.ErrPasswordNoSpecialChar
    else none

/-- The two functions of `golang.org/x/crypto/bcrypt` that `auth.go` calls; they are an
argument of the model. `CompareHashAndPassword hash password` is `none` (Go `nil`) when
the password verifies against the hash. -/
structure bcrypt.Package where
  GenerateFromPassword : String → Except Error String
  CompareHashAndPassword : String → String → Option Error

/-- Source `GeneratePasswordHash`: the hash and a `nil` error, or the empty string and
the error of bcrypt. -/
def GeneratePasswordHash (B : bcrypt.Package) (password : String) : String × Option Error :=
  match B.GenerateFromPassword password with
  | .error err => ("", some err)
  | .ok h => (h, none)

/-- Source `ValidatePassword`. -/
def ValidatePassword (B : bcrypt.Package) (password : String) (hash : String) : Option Error :=
  B.CompareHashAndPassword hash password

/-- Source `ValidatePasswordChange`: the returned pair of hash and error. -/
def ValidatePasswordChange (T : unicode.Tables) (B : bcrypt.Package)
    (currentHash newPassword confirmPassword : String) : String × Option Error :=
  match CheckPasswordPolicy T newPassword with
  | some err => ("", some err)
  | none =>
    if newPassword ≠ confirmPassword then ("", some Error.ErrPasswordMismatch)
    else
      match ValidatePassword B newPassword currentHash with
      | none => ("", some Error.ErrReusedPassword)
      | some _ => GeneratePasswordHash B newPassword

/-! ## The rules of the password policy, as the specification lists them

Section 4.1 of the specification: six rules in a fixed order. A rule is violated when
the password has the defect it names; the character classes are those of Go's `unicode`
package and the length is Go's `len`. -/

/-- The six rules. -/
inductive PolicyRule where
  | empty
  | tooShort
  | noUppercase
  | noLowercase
  | noNumber
  | noSpecialChar
deriving DecidableEq, Repr

/-- The fixed order of the rules. -/
def PolicyRule.order : List PolicyRule :=
  [.empty, .tooShort, .noUppercase, .noLowercase, .noNumber, .noSpecialChar]

/-- Whether the password violates the rule. -/
def PolicyRule.violated (T : unicode.Tables) (password : String) : PolicyRule → Bool
  | .empty => decide (password = "")
  | .tooShort => decide (password.utf8ByteSize < 12)
  | .noUppercase => !password.data.any (fun c => unicode.IsUpper T c)
  | .noLowercase => !password.data.any (fun c => unicode.IsLower T c)
  | .noNumber => !password.data.any (fun c => unicode.IsNumber T c)
  | .noSpecialChar => !password.data.any (fun c => specialChars.data.contains c)

/-- The error that reports the rule. -/
def PolicyRule.error : PolicyRule → Error
  | .empty => Error.ErrEmptyPassword
  | .tooShort => Error.ErrPasswordTooShort
  | .noUppercase => Error.ErrPasswordNoUppercase
  | .noLowercase => Error.ErrPasswordNoLowercase
  | .noNumber => Error.ErrPasswordNoNumber
  | .noSpecialChar => Error.ErrPasswordNoSpecialChar

/-- The earliest violated rule in the fixed order, if any. -/
def PolicyRule.firstViolated (T : unicode.Tables) (password : String) : Option PolicyRule :=
  PolicyRule.order.find? (fun rule => rule.violated T password)

/-- The classes `Upper`, `Lower` and `Number` of the range tables are pairwise disjoint,
as the general categories Lu, Ll and N of Unicode are. -/
def unicode.Tables.Disjoint (T : unicode.Tables) : Prop :=
  ∀ c, (T.Upper c = true → T.Lower c = false ∧ T.Number c = false)
    ∧ (T.Lower c = true → T.Number c = false)

/-! ## `middleware/session.go` -/

/-- Inactivity timeout: `const SessionTimeout = 15 * time.Minute`. -/
def SessionTimeout : Duration := 15 * time.Minute

/-- The server-side revocation registry: `invalidatedSessions map[string]time.Time`. -/
structure SessionInvalidation where
  invalidatedSessions : String → Option Time

/-- The registry at process start: `make(map[string]time.Time)`. -/
def SessionInvalidation.init : SessionInvalidation := ⟨fun _ => none⟩

/-- Source `InvalidateSession`, run at instant `now` on registry `reg`: records
`sessionID ↦ now`, then deletes every entry whose time is before `now - 24h`. -/
def InvalidateSession (reg : SessionInvalidation) (now : Time) (sessionID : String) :
    SessionInvalidation :=
  let inserted : String → Option Time :=
    fun sid => if sid = sessionID then some now else reg.invalidatedSessions sid
  let cutoff := time.Add now (-24 * time.Hour)
  { invalidatedSessions := fun sid =>
      match inserted sid with
      | some invTime => if time.Before invTime cutoff then none else some invTime
      | none => none }

/-- Source `IsSessionInvalidated`: membership of `sessionID` in the registry. -/
def IsSessionInvalidated (reg : SessionInvalidation) (sessionID : String) : Bool :=
  match reg.invalidatedSessions sessionID with
  | some _ => true
  | none => false

/-! ## `middleware/middleware.go` -/

/-- What `GetContext` does with a request: it either invokes the downstream handler with
the session and the user it has put in the request context (`user = none` is the Go
`nil` user), or it panics on a failed type assertion before reaching the handler. -/
inductive GetContext.Result where
  | served (session : Session) (user : Option User)
  | panic

/-- The user bound to the request when the handler runs, if any. -/
def GetContext.Result.user : GetContext.Result → Option User
  | .served _ u => u
  | .panic => none

/-- The session handed to the downstream handler, if the handler runs. -/
def GetContext.Result.session : GetContext.Result → Option Session
  | .served s _ => some s
  | .panic => none

/-- Lines 57-70 of `GetContext`: the session put in the context. `storeGet` is the
result of `Store.Get` (`none` when it returns an error) and `storeNew` the result of
`Store.New`; a session whose `MaxAge` is `-1` is replaced by `Store.New` too. -/
def GetContext.session (storeGet : Option Session) (storeNew : Session) : Session :=
  let session := match storeGet with
    | some s => s
    | none => storeNew
  if session.MaxAge = -1 then storeNew else session

/-- The three deletions of `id`, `lastActivity` and `passwordVersion`. -/
def Session.clearIdentity (session : Session) : Session :=
  { session with
    Values := ((session.Values.delete "id").delete "lastActivity").delete "passwordVersion" }

/-- The four deletions of the revoked branch (lines 81-84). -/
def Session.clearRevoked (session : Session) : Session :=
  { session with
    Values := (((session.Values.delete "id").delete "lastActivity").delete
      "passwordVersion").delete "sessionToken" }

/-- The revocation test of lines 77-79 of `GetContext` and 223-225 of `RequireAPIKey`:
the session holds a `sessionToken`, it is a string, and the registry holds it. -/
def tokenInvalidated (reg : SessionInvalidation) (session : Session) : Bool :=
  match session.Values "sessionToken" with
  | some (Value.string token) => IsSessionInvalidated reg token
  | _ => false

/-- Source `GetContext` (lines 47-190), run at instant `now` against registry `reg` and
user repository `GetUser` (`none` is a lookup error). The result is what the function
hands to the downstream handler. Form parsing (lines 51-54), whose failure writes an
error line without ending the function, changes neither the session values nor the
user; its effect on the response is part of `GetContext.thenRequireAPIKey`. The error of
`session.Save` is dropped by the source. -/
def GetContext (reg : SessionInvalidation) (GetUser : Int → Option User) (now : Time)
    (storeGet : Option Session) (storeNew : Session) : GetContext.Result :=
  let session := GetContext.session storeGet storeNew
  if tokenInvalidated reg session then
    .served session.clearRevoked none
  else
    match session.Values "id" with
    | none => .served session none
    | some id =>
      match session.Values "lastActivity" with
      | some lastActivity =>
        match lastActivity with
        | Value.time lastActivityTime =>
          if time.Since now lastActivityTime > SessionTimeout then
            .served session.clearIdentity none
          else
            match id with
            | Value.int64 i =>
              match GetUser i with
              | none => .served session none
              | some u =>
                match session.Values "passwordVersion" with
                | none => .served session.clearIdentity none
                | some (Value.int64 sessionVersion) =>
                  if sessionVersion ≠ u.PasswordVersion then
                    .served session.clearIdentity none
                  else
                    .served { session with
                      Values := session.Values.set "lastActivity" (Value.time now) } (some u)
                | some _ => .served session.clearIdentity none
            | _ => .panic
        | _ => .served session.clearIdentity none
      | none =>
        match id with
        | Value.int64 i =>
          match GetUser i with
          | none => .served session none
          | some u =>
            match session.Values "passwordVersion" with
            | none =>
              .served { session with
                Values := (session.Values.set "passwordVersion"
                  (Value.int64 u.PasswordVersion)).set "lastActivity" (Value.time now) } (some u)
            | some (Value.int64 sessionVersion) =>
              if sessionVersion ≠ u.PasswordVersion then
                .served session.clearIdentity none
              else
                .served { session with
                  Values := session.Values.set "lastActivity" (Value.time now) } (some u)
            | some _ => .served session.clearIdentity none
        | _ => .panic

/-- What `RequireAPIKey` does with a request: the CORS preflight answer, a call of
`JSONError` with status `c` and message `m`, the downstream handler invoked with the
context values `user`, `user_id` and `api_key`, or a panic on a failed type assertion. -/
inductive Response where
  | preflight
  | jsonError (c : Nat) (m : String)
  | next (user : User) (user_id : Int) (api_key : String)
  | panic
deriving DecidableEq, Repr

def StatusUnauthorized : Nat := 401
def StatusForbidden : Nat := 403

/-- Go `strings.TrimPrefix(s, "Bearer ")`. -/
def trimBearer (s : String) : String :=
  if "Bearer ".data.isPrefixOf s.data then String.mk (s.data.drop 7) else s

/-- Lines 261-270 of `RequireAPIKey`: the key taken from the `api_key` form value
(`r.Form.Get("api_key")`, empty when absent) or else from the first `Authorization`
header value (`r.Header["Authorization"]`, `none` when the header is absent). -/
def RequireAPIKey.apiKey (formKey : String) (authorization : Option (List String)) : String :=
  if formKey = "" then
    match authorization with
    | some (tok :: _) => trimBearer tok
    | _ => formKey
  else formKey

/-- Source `RequireAPIKey` (lines 196-304), run at instant `now`. `ctxSession` and
`ctxUser` are `ctx.Get(r, "session")` and `ctx.Get(r, "user")` (`none` is `nil`);
`GetUserByAPIKey` is the repository lookup (`none` is an error). -/
def RequireAPIKey (reg : SessionInvalidation) (GetUserByAPIKey : String → Option User)
    (now : Time) (method : String) (ctxSession : Option Session) (ctxUser : Option User)
    (formKey : String) (authorization : Option (List String)) : Response :=
  if method = "OPTIONS" then .preflight
  else
    match ctxSession with
    | none => .jsonError StatusUnauthorized "Session required for API access"
    | some session =>
      match session.Values "id" with
      | none => .jsonError StatusUnauthorized "Valid session required for API access"
      | some sessionUserID =>
        if tokenInvalidated reg session then
          .jsonError StatusUnauthorized "Session has been invalidated"
        else
          match session.Values "lastActivity" with
          | none => .jsonError StatusUnauthorized "Invalid session state"
          | some (Value.time lastActivityTime) =>
            if time.Since now lastActivityTime > SessionTimeout then
              .jsonError StatusUnauthorized "Session expired"
            else
              match ctxUser with
              | none =>
                .jsonError StatusUnauthorized "Valid session user required for API access"
              | some sessionUserObj =>
                let ak := RequireAPIKey.apiKey formKey authorization
                if ak = "" then .jsonError StatusUnauthorized "API Key not set"
                else
                  match GetUserByAPIKey ak with
                  | none => .jsonError StatusUnauthorized "Invalid API Key"
                  | some u =>
                    match sessionUserID with
                    | Value.int64 sessionUID =>
                      if u.Id ≠ sessionUID then
                        .jsonError StatusForbidden
                          "API key does not belong to current session user"
                      else if u.Id ≠ sessionUserObj.Id then
                        .jsonError StatusForbidden "API key user mismatch with session user"
                      else .next u u.Id ak
                    | _ => .panic
          | some _ => .jsonError StatusUnauthorized "Invalid session state"


/-- Modelled from the spec: the type `models.Response`, which is declared outside the
sources at hand; section 6 of the specification gives its JSON form as the envelope with
the fields `success` and `message`. -/
structure models.Response where
  Success : Bool
  Message : String
deriving DecidableEq, Repr

/-- What `JSONError` writes: the status code, the content type, and the value whose
JSON text (`json.MarshalIndent`) is the body. Two bodies are the same text exactly when
the two values are equal. -/
structure JSONResponse where
  code : Nat
  contentType : String
  body : models.Response
deriving DecidableEq, Repr

/-- Source `JSONError`. -/
def JSONError (c : Nat) (m : String) : JSONResponse :=
  { code := c, contentType := "application/json", body := { Success := false, Message := m } }

/-- The response that an outcome of `RequireAPIKey` writes through `JSONError`. -/
def Response.written : Response → Option JSONResponse
  | .jsonError c m => some (JSONError c m)
  | _ => none

/-- Go `url.Values`: the values of each query parameter. -/
abbrev url.Values := String → List String

/-- Go `q.Set(key, value)`: the parameter gets the single value. -/
def url.Values.Set (q : url.Values) (key value : String) : url.Values :=
  fun k => if k = key then [value] else q k

/-- Go `q.Get(key)`: the first value of the parameter, or the empty string. -/
def url.Values.Get (q : url.Values) (key : String) : String :=
  match q key with
  | [] => ""
  | v :: _ => v

def StatusTemporaryRedirect : Nat := 307
def StatusInternalServerError : Nat := 500

/-- What `RequireLogin` does with a request: the downstream handler, or `http.Redirect`
to `target` followed by `?` and the encoding of `query`, with status `code`. -/
inductive RequireLogin.Result where
  | next
  | redirect (target : String) (query : url.Values) (code : Nat)

/-- Source `RequireLogin` (lines 308-327). `path` is `r.URL.Path` and `query` is
`r.URL.Query()`. -/
def RequireLogin (ctxUser : Option User) (path : String) (query : url.Values) :
    RequireLogin.Result :=
  match ctxUser with
  | some currentUser =>
    if currentUser.PasswordChangeRequired && decide (path ≠ "/reset_password") then
      .redirect "/reset_password" (query.Set "next" path) StatusTemporaryRedirect
    else .next
  | none => .redirect "/login" (query.Set "next" path) StatusTemporaryRedirect

/-- What a permission guard does with a request: the downstream handler, `http.Error`
with the status text of `code`, or the panic of the assertion `.(models.User)` on a
nil context user. -/
inductive EnforceViewOnly.Result where
  | next
  | httpError (code : Nat)
  | panic
deriving DecidableEq, Repr

/-- Source `EnforceViewOnly` (lines 331-350). `HasPermission user slug` is the pair
returned by `user.HasPermission(slug)`, whose second component is `none` for a `nil`
error; `PermissionModifyObjects` is the constant of package `models`. -/
def EnforceViewOnly (HasPermission : User → String → Bool × Option String)
    (PermissionModifyObjects : String) (method : String) (ctxUser : Option User) :
    EnforceViewOnly.Result :=
  if method ≠ "GET" ∧ method ≠ "HEAD" ∧ method ≠ "OPTIONS" then
    match ctxUser with
    | none => .panic
    | some user =>
      match HasPermission user PermissionModifyObjects with
      | (_, some _) => .httpError StatusInternalServerError
      | (access, none) => if !access then .httpError StatusForbidden else .next
  else .next

/-- What `RequirePermission` does with a request: the downstream handler, a call of
`JSONError` with status `c` and message `m`, or the panic of the assertion
`.(models.User)` on a nil context user. -/
inductive RequirePermission.Result where
  | next
  | jsonError (c : Nat) (m : String)
  | panic
deriving DecidableEq, Repr

/-- Source `RequirePermission` (lines 355-371). `HasPermission user slug` is the pair
returned by `user.HasPermission(slug)`; the message of a non-nil error is `err.Error()`
and `http.StatusText(http.StatusForbidden)` is `Forbidden`. -/
def RequirePermission (HasPermission : User → String → Bool × Option String)
    (perm : String) (ctxUser : Option User) : RequirePermission.Result :=
  match ctxUser with
  | none => .panic
  | some user =>
    match HasPermission user perm with
    | (_, some err) => .jsonError StatusInternalServerError err
    | (access, none) => if !access then .jsonError StatusForbidden "Forbidden" else .next

/-! ## `middleware/session_test_helper.go` -/

/-- Go `strconv.Atoi` on a 64-bit platform: an optional sign followed by one or more
decimal digits, inside the range of `int64`; `none` is a non-nil error. -/
def strconv.Atoi (s : String) : Option Int :=
  let signed : Bool × List Char :=
    match s.data with
    | '+' :: rest => (false, rest)
    | '-' :: rest => (true, rest)
    | rest => (false, rest)
  if signed.2.isEmpty || !signed.2.all Char.isDigit then none
  else
    let magnitude : Nat := signed.2.foldl (fun acc c => 10 * acc + (c.toNat - 48)) 0
    let value : Int := if signed.1 then -(magnitude : Int) else (magnitude : Int)
    if value < -(2 ^ 63) ∨ value > 2 ^ 63 - 1 then none else some value

/-- The value of a signed 64-bit integer after an arithmetic operation whose exact
result is `x` (two's complement wrap-around). -/
def int64.wrap (x : Int) : Int := (x + 2 ^ 63) % 2 ^ 64 - 2 ^ 63

/-- Source `GetSessionTimeout`; `timeoutStr` is `os.Getenv("SESSION_TIMEOUT_MINUTES")`,
the empty string when the variable is unset. The product
`time.Duration(minutes) * time.Minute` is a multiplication of `int64` values. -/
def GetSessionTimeout (timeoutStr : String) : Duration :=
  if timeoutStr ≠ "" then
    match strconv.Atoi timeoutStr with
    | some minutes =>
      if minutes > 0 then int64.wrap (minutes * time.Minute) else SessionTimeout
    | none => SessionTimeout
  else SessionTimeout

/-- Source `IsTestMode`. -/
def IsTestMode (timeoutStr : String) : Bool :=
  decide (GetSessionTimeout timeoutStr < 5 * time.Minute)

/-! ## The eight preconditions of `RequireAPIKey`, as the specification lists them

Section 4.4 of the specification: the request reaches the downstream handler when all of
them hold. They are stated on the inputs of `RequireAPIKey`, with plain integer
arithmetic on instants. -/

namespace RequireAPIKey

/-- Precondition 1: a session object exists in the context. -/
def pre1 (ctxSession : Option Session) : Bool := ctxSession.isSome

/-- Precondition 2: the session carries an `id`. -/
def pre2 (ctxSession : Option Session) : Bool :=
  match ctxSession with
  | some session => (session.Values "id").isSome
  | none => false

/-- Precondition 3: the session's token is not revoked. -/
def pre3 (reg : SessionInvalidation) (ctxSession : Option Session) : Bool :=
  match ctxSession with
  | some session =>
    match session.Values "sessionToken" with
    | some (Value.string token) => !IsSessionInvalidated reg token
    | _ => true
  | none => true

/-- Precondition 4: the session carries `lastActivity`, it is a timestamp, and it is not
older than the 15-minute window. -/
def pre4 (now : Time) (ctxSession : Option Session) : Bool :=
  match ctxSession with
  | some session =>
    match session.Values "lastActivity" with
    | some (Value.time t) => decide (now - t ≤ 15 * time.Minute)
    | _ => false
  | none => false

/-- Precondition 5: a resolved user exists in the context. -/
def pre5 (ctxUser : Option User) : Bool := ctxUser.isSome

/-- Precondition 6: a non-empty API key is presented. -/
def pre6 (formKey : String) (authorization : Option (List String)) : Bool :=
  decide (RequireAPIKey.apiKey formKey authorization ≠ "")

/-- Precondition 7: the key resolves to a user. -/
def pre7 (GetUserByAPIKey : String → Option User) (formKey : String)
    (authorization : Option (List String)) : Bool :=
  (GetUserByAPIKey (RequireAPIKey.apiKey formKey authorization)).isSome

/-- Precondition 8: the identifier of the key's owner equals both the session's `id` and
the identifier of the context user. -/
def pre8 (GetUserByAPIKey : String → Option User) (ctxSession : Option Session)
    (ctxUser : Option User) (formKey : String) (authorization : Option (List String)) : Bool :=
  match ctxSession, ctxUser, GetUserByAPIKey (RequireAPIKey.apiKey formKey authorization) with
  | some session, some sessionUser, some owner =>
    decide (session.Values "id" = some (Value.int64 owner.Id))
      && decide (owner.Id = sessionUser.Id)
  | _, _, _ => false

/-- The five session preconditions: a rejection is for an invalid session when one of
them fails. -/
def sessionValid (reg : SessionInvalidation) (now : Time) (ctxSession : Option Session)
    (ctxUser : Option User) : Bool :=
  pre1 ctxSession && pre2 ctxSession && pre3 reg ctxSession && pre4 now ctxSession
    && pre5 ctxUser

/-- The messages of the rejections for an invalid session. -/
def sessionMessages : List String :=
  ["Session required for API access", "Valid session required for API access",
    "Session has been invalidated", "Invalid session state", "Session expired",
    "Valid session user required for API access"]

end RequireAPIKey

/-! ## Sample data -/

namespace Sample

def alice : User := ⟨1, 3, false⟩
def bob : User := ⟨2, 5, false⟩

/-- A user repository holding `alice` and `bob`. -/
def users : Int → Option User :=
  fun i => if i = 1 then some alice else if i = 2 then some bob else none

/-- The API keys of `alice` and `bob`. -/
def keys : String → Option User :=
  fun k => if k = "key-alice" then some alice else if k = "key-bob" then some bob else none

/-- Range tables that classify no rune above Latin-1. -/
def tables : unicode.Tables := ⟨fun _ => false, fun _ => false, fun _ => false⟩

/-- A stand-in for bcrypt: the hash of a password is the password after the text
`hash:`, and a password verifies against exactly that hash. -/
def bcrypt : bcrypt.Package :=
  { GenerateFromPassword := fun password => .ok ("hash:" ++ password)
    CompareHashAndPassword := fun hash password =>
      if hash = "hash:" ++ password then none else some (Error.bcrypt "mismatch") }

/-- A permission lookup: `alice` may modify objects, `bob` may not, and the lookup fails
for every other user. -/
def permissions : User → String → Bool × Option String :=
  fun user slug =>
    if user.Id = 1 then (decide (slug = "modify_objects"), none)
    else if user.Id = 2 then (false, none)
    else (false, some "record not found")

/-- A session of `alice` without `lastActivity`, stamped with password version `v`. -/
def noActivity (v : Int) : Session :=
  ⟨((ValueMap.empty.set "id" (Value.int64 1)).set "sessionToken" (Value.string "tok")).set
    "passwordVersion" (Value.int64 v), 900⟩

/-- A session whose `id` belongs to no user of the repository. -/
def unknownUser : Session :=
  ⟨((ValueMap.empty.set "id" (Value.int64 99)).set "lastActivity" (Value.time 1000)).set
    "passwordVersion" (Value.int64 1), 900⟩

/-- A session without `id` that still carries `lastActivity` and `passwordVersion`. -/
def leftover : Session :=
  ⟨(ValueMap.empty.set "lastActivity" (Value.time 1000)).set "passwordVersion"
    (Value.int64 1), 900⟩

/-- What `Store.New` returns for a request without a usable cookie. -/
def fresh : Session := ⟨ValueMap.empty, 900⟩

/-- A session that carries nothing but the `id` of `alice`. -/
def idOnly : Session := ⟨ValueMap.empty.set "id" (Value.int64 1), 900⟩

/-- A session of `alice` with all four fields, last active at `t`, stamped with
password version `v`. -/
def full (t : Time) (v : Int) : Session :=
  ⟨(((ValueMap.empty.set "id" (Value.int64 1)).set "sessionToken" (Value.string "tok")).set
    "lastActivity" (Value.time t)).set "passwordVersion" (Value.int64 v), 900⟩

/-- The registry after the token `tok` was invalidated at instant `1000`. -/
def revoked : SessionInvalidation := InvalidateSession SessionInvalidation.init 1000 "tok"

end Sample

/-! ## Properties -/

section Lemmas

theorem SessionTimeout_eq : SessionTimeout = 900000000000 := by
  norm_num [SessionTimeout, time.Minute, time.Second, time.Millisecond, time.Microsecond,
    time.Nanosecond]

/-- Saturation of `Sub` does not change the comparison with the timeout. -/
theorem time.Since_gt_SessionTimeout (now t : Time) :
    time.Since now t > SessionTimeout ↔ now - t > 900000000000 := by
  have h1 : time.maxDuration = 9223372036854775807 := by norm_num [time.maxDuration]
  have h2 : time.minDuration = -9223372036854775808 := by norm_num [time.minDuration]
  unfold time.Since time.Sub
  rw [h1, h2, SessionTimeout_eq]
  split_ifs <;> constructor <;> intro h <;> linarith

theorem ValueMap.delete_same (m : ValueMap) (k : String) : m.delete k k = none := by
  simp [ValueMap.delete]

theorem ValueMap.delete_other (m : ValueMap) (k key : String) (h : key ≠ k) :
    m.delete k key = m key := by
  simp [ValueMap.delete, h]

theorem ValueMap.set_same (m : ValueMap) (k : String) (v : Value) : m.set k v k = some v := by
  simp [ValueMap.set]

theorem ValueMap.set_other (m : ValueMap) (k key : String) (v : Value) (h : key ≠ k) :
    m.set k v key = m key := by
  simp [ValueMap.set, h]

/-- Inversion of `GetContext`: the three paths on which a user is bound, with the session
handed to the handler on each of them. -/
theorem GetContext_served_some (reg : SessionInvalidation) (GetUser : Int → Option User)
    (now : Time) (storeGet : Option Session) (storeNew : Session) (s1 : Session) (u : User)
    (hB : GetContext reg GetUser now storeGet storeNew = .served s1 (some u)) :
    tokenInvalidated reg (GetContext.session storeGet storeNew) = false
    ∧ ∃ i, (GetContext.session storeGet storeNew).Values "id" = some (Value.int64 i)
      ∧ GetUser i = some u
      ∧ ((∃ t, (GetContext.session storeGet storeNew).Values "lastActivity"
              = some (Value.time t)
            ∧ ¬ time.Since now t > SessionTimeout
            ∧ (GetContext.session storeGet storeNew).Values "passwordVersion"
              = some (Value.int64 u.PasswordVersion)
            ∧ s1 = { GetContext.session storeGet storeNew with
                Values := (GetContext.session storeGet storeNew).Values.set "lastActivity"
                  (Value.time now) })
        ∨ ((GetContext.session storeGet storeNew).Values "lastActivity" = none
            ∧ (GetContext.session storeGet storeNew).Values "passwordVersion"
              = some (Value.int64 u.PasswordVersion)
            ∧ s1 = { GetContext.session storeGet storeNew with
                Values := (GetContext.session storeGet storeNew).Values.set "lastActivity"
                  (Value.time now) })
        ∨ ((GetContext.session storeGet storeNew).Values "lastActivity" = none
            ∧ (GetContext.session storeGet storeNew).Values "passwordVersion" = none
            ∧ s1 = { GetContext.session storeGet storeNew with
                Values := ((GetContext.session storeGet storeNew).Values.set "passwordVersion"
                  (Value.int64 u.PasswordVersion)).set "lastActivity" (Value.time now) })) := by
  unfold GetContext at hB
  generalize GetContext.session storeGet storeNew = s at hB ⊢
  by_cases hInv : tokenInvalidated reg s = true
  · simp [hInv] at hB
  refine ⟨by simpa using hInv, ?_⟩
  simp only [hInv] at hB
  cases hId : s.Values "id" with
  | none => simp [hId] at hB
  | some id =>
    simp only [hId] at hB
    cases hLA : s.Values "lastActivity" with
    | some la =>
      simp only [hLA] at hB
      cases la with
      | time t =>
        simp only [] at hB
        by_cases hExp : time.Since now t > SessionTimeout
        · simp [hExp] at hB
        · simp only [hExp] at hB
          cases id with
          | int64 i =>
            cases hU : GetUser i with
            | none => simp [hU] at hB
            | some u1 =>
              simp only [hU] at hB
              cases hPV : s.Values "passwordVersion" with
              | none => simp [hPV] at hB
              | some pv =>
                cases pv with
                | int64 v =>
                  simp only [hPV] at hB
                  by_cases hv : v = u1.PasswordVersion
                  · simp [hv] at hB
                    obtain ⟨hs, rfl⟩ := hB
                    exact ⟨i, rfl, hU, Or.inl ⟨t, rfl, hExp, by rw [hv], hs.symm⟩⟩
                  · simp [hv] at hB
                | string _ => simp [hPV] at hB
                | time _ => simp [hPV] at hB
                | other _ => simp [hPV] at hB
          | string _ => simp at hB
          | time _ => simp at hB
          | other _ => simp at hB
      | int64 _ => simp at hB
      | string _ => simp at hB
      | other _ => simp at hB
    | none =>
      simp only [hLA] at hB
      cases id with
      | int64 i =>
        cases hU : GetUser i with
        | none => simp [hU] at hB
        | some u1 =>
          simp only [hU] at hB
          cases hPV : s.Values "passwordVersion" with
          | none =>
            simp [hPV] at hB
            obtain ⟨hs, rfl⟩ := hB
            exact ⟨i, rfl, hU, Or.inr (Or.inr ⟨rfl, rfl, hs.symm⟩)⟩
          | some pv =>
            cases pv with
            | int64 v =>
              simp only [hPV] at hB
              by_cases hv : v = u1.PasswordVersion
              · simp [hv] at hB
                obtain ⟨hs, rfl⟩ := hB
                exact ⟨i, rfl, hU, Or.inr (Or.inl ⟨rfl, by rw [hv], hs.symm⟩)⟩
              · simp [hv] at hB
            | string _ => simp [hPV] at hB
            | time _ => simp [hPV] at hB
            | other _ => simp [hPV] at hB
      | string _ => simp at hB
      | time _ => simp at hB
      | other _ => simp at hB

theorem String.length_le_utf8ByteSize_go (l : List Char) :
    l.length ≤ String.utf8ByteSize.go l := by
  induction l with
  | nil => simp [String.utf8ByteSize.go]
  | cons c cs ih =>
    simp only [String.utf8ByteSize.go, List.length_cons]
    have := Char.utf8Size_pos c
    omega

/-- A string has at least as many bytes of UTF-8 as it has characters. -/
theorem String.length_le_utf8ByteSize (s : String) : s.length ≤ s.utf8ByteSize := by
  cases s with
  | mk l => exact String.length_le_utf8ByteSize_go l

theorem Char.le_iff_toNat_le (a b : Char) : a ≤ b ↔ a.toNat ≤ b.toNat := by
  rw [Char.le_def, UInt32.le_def, BitVec.le_def]
  rfl

/-- The flags after the loop of `CheckPasswordPolicy`: each flag is set when it was set
before or some character takes the corresponding case of the `switch`. -/
theorem CheckPasswordPolicy.foldl_step (T : unicode.Tables) (l : List Char)
    (f : CheckPasswordPolicy.Flags) :
    (l.foldl (CheckPasswordPolicy.step T) f).hasUpper
        = (f.hasUpper || l.any (fun c => unicode.IsUpper T c))
    ∧ (l.foldl (CheckPasswordPolicy.step T) f).hasLower
        = (f.hasLower || l.any (fun c => !unicode.IsUpper T c && unicode.IsLower T c))
    ∧ (l.foldl (CheckPasswordPolicy.step T) f).hasNumber
        = (f.hasNumber || l.any (fun c => !unicode.IsUpper T c && !unicode.IsLower T c
            && unicode.IsNumber T c))
    ∧ (l.foldl (CheckPasswordPolicy.step T) f).hasSpecial
        = (f.hasSpecial || l.any (fun c => !unicode.IsUpper T c && !unicode.IsLower T c
            && !unicode.IsNumber T c && strings.ContainsRune specialChars c)) := by
  induction l generalizing f with
  | nil => simp
  | cons c cs ih =>
    simp only [List.foldl_cons, List.any_cons]
    obtain ⟨h1, h2, h3, h4⟩ := ih (CheckPasswordPolicy.step T f c)
    rw [h1, h2, h3, h4]
    unfold CheckPasswordPolicy.step
    cases hU : unicode.IsUpper T c <;> cases hL : unicode.IsLower T c <;>
      cases hN : unicode.IsNumber T c <;>
      cases hS : strings.ContainsRune specialChars c <;>
      simp [Bool.or_assoc]

/-- The outcome of `CheckPasswordPolicy` once the two length tests are passed. -/
theorem CheckPasswordPolicy_of_long (T : unicode.Tables) (password : String)
    (hNonEmpty : password ≠ "") (hLong : ¬ password.utf8ByteSize < MinPasswordLength) :
    CheckPasswordPolicy T password =
      if !password.data.any (fun c => unicode.IsUpper T c) then
        some Error.ErrPasswordNoUppercase
      else if !password.data.any (fun c => !unicode.IsUpper T c && unicode.IsLower T c) then
        some Error.ErrPasswordNoLowercase
      else if !password.data.any (fun c => !unicode.IsUpper T c && !unicode.IsLower T c
          && unicode.IsNumber T c) then
        some Error.ErrPasswordNoNumber
      else if !password.data.any (fun c => !unicode.IsUpper T c && !unicode.IsLower T c
          && !unicode.IsNumber T c && strings.ContainsRune specialChars c) then
        some Error.ErrPasswordNoSpecialChar
      else none := by
  unfold CheckPasswordPolicy
  obtain ⟨h1, h2, h3, h4⟩ :=
    CheckPasswordPolicy.foldl_step T password.data ⟨false, false, false, false⟩
  simp only [hNonEmpty, hLong, if_false, h1, h2, h3, h4, Bool.false_or]

/-- The ASCII letters, digits and the special characters in the Latin-1 table. -/
theorem unicode.ascii_classes (T : unicode.Tables) (c : Char) :
    (('A' ≤ c ∧ c ≤ 'Z') → unicode.IsUpper T c = true)
    ∧ (('a' ≤ c ∧ c ≤ 'z') → unicode.IsUpper T c = false ∧ unicode.IsLower T c = true)
    ∧ (('0' ≤ c ∧ c ≤ '9') → unicode.IsUpper T c = false ∧ unicode.IsLower T c = false
        ∧ unicode.IsNumber T c = true)
    ∧ (c ∈ specialChars.data → unicode.IsUpper T c = false ∧ unicode.IsLower T c = false
        ∧ unicode.IsNumber T c = false ∧ strings.ContainsRune specialChars c = true) := by
  have hA : 'A'.toNat = 65 := rfl
  have hZ : 'Z'.toNat = 90 := rfl
  have ha : 'a'.toNat = 97 := rfl
  have hz : 'z'.toNat = 122 := rfl
  have h0 : '0'.toNat = 48 := rfl
  have h9 : '9'.toNat = 57 := rfl
  have hSpec : ∀ d ∈ specialChars.data, d.toNat ≤ 255 ∧ unicode.latin1Upper d.toNat = false
      ∧ unicode.latin1Lower d.toNat = false ∧ unicode.latin1Number d.toNat = false := by
    decide
  refine ⟨?_, ?_, ?_, ?_⟩
  · rintro ⟨h1, h2⟩
    rw [Char.le_iff_toNat_le] at h1 h2
    rw [hA] at h1
    rw [hZ] at h2
    have h3 : c.toNat ≤ 255 := by omega
    simp [unicode.IsUpper, unicode.MaxLatin1, unicode.latin1Upper, h1, h2, h3]
  · rintro ⟨h1, h2⟩
    rw [Char.le_iff_toNat_le] at h1 h2
    rw [ha] at h1
    rw [hz] at h2
    have h3 : c.toNat ≤ 255 := by omega
    simp [unicode.IsUpper, unicode.IsLower, unicode.MaxLatin1, unicode.latin1Upper,
      unicode.latin1Lower, h1, h2, h3]
    omega
  · rintro ⟨h1, h2⟩
    rw [Char.le_iff_toNat_le] at h1 h2
    rw [h0] at h1
    rw [h9] at h2
    have h3 : c.toNat ≤ 255 := by omega
    simp [unicode.IsUpper, unicode.IsLower, unicode.IsNumber, unicode.MaxLatin1,
      unicode.latin1Upper, unicode.latin1Lower, unicode.latin1Number, h1, h2, h3]
    omega
  · intro h
    obtain ⟨h1, h2, h3, h4⟩ := hSpec c h
    simp [unicode.IsUpper, unicode.IsLower, unicode.IsNumber, unicode.MaxLatin1, h1, h2, h3,
      h4, strings.ContainsRune, h]

end Lemmas

/-- C1, counterexample: a session that carries only `id` (no `sessionToken`, no
`lastActivity`, no `passwordVersion`) gets the user bound. -/
theorem C1_counterexample_id_only :
    (GetContext SessionInvalidation.init Sample.users 0 (some Sample.idOnly) Sample.fresh).user
        = some Sample.alice
      ∧ (GetContext.session (some Sample.idOnly) Sample.fresh).Values "sessionToken" = none
      ∧ (GetContext.session (some Sample.idOnly) Sample.fresh).Values "lastActivity" = none
      ∧ (GetContext.session (some Sample.idOnly) Sample.fresh).Values "passwordVersion" = none := by
  decide

/-- C1 as amended: whenever `GetContext` binds a user, the session carries an `id` whose
lookup gave that user, its `sessionToken` (when a string) is not revoked, and either
`lastActivity` is a timestamp inside the window with `passwordVersion` equal to the
user's current version, or `lastActivity` is absent and `passwordVersion` is absent or
equal to the user's current version. -/
theorem C1_bound_user_only_if (reg : SessionInvalidation) (GetUser : Int → Option User)
    (now : Time) (storeGet : Option Session) (storeNew : Session) (u : User)
    (hBound : (GetContext reg GetUser now storeGet storeNew).user = some u) :
    (∃ i, (GetContext.session storeGet storeNew).Values "id" = some (Value.int64 i)
        ∧ GetUser i = some u)
    ∧ (∀ token, (GetContext.session storeGet storeNew).Values "sessionToken"
          = some (Value.string token) → IsSessionInvalidated reg token = false)
    ∧ ((∃ t, (GetContext.session storeGet storeNew).Values "lastActivity"
            = some (Value.time t)
          ∧ now - t ≤ SessionTimeout
          ∧ (GetContext.session storeGet storeNew).Values "passwordVersion"
            = some (Value.int64 u.PasswordVersion))
      ∨ ((GetContext.session storeGet storeNew).Values "lastActivity" = none
          ∧ ((GetContext.session storeGet storeNew).Values "passwordVersion" = none
            ∨ (GetContext.session storeGet storeNew).Values "passwordVersion"
              = some (Value.int64 u.PasswordVersion)))) := by
  have hB : ∃ s1, GetContext reg GetUser now storeGet storeNew = .served s1 (some u) := by
    cases h : GetContext reg GetUser now storeGet storeNew with
    | served a b =>
      rw [h] at hBound
      exact ⟨a, by simpa [GetContext.Result.user] using hBound⟩
    | panic => simp [h, GetContext.Result.user] at hBound
  obtain ⟨s1, hB⟩ := hB
  obtain ⟨hInv, i, hId, hU, hCases⟩ := GetContext_served_some _ _ _ _ _ _ _ hB
  refine ⟨⟨i, hId, hU⟩, ?_, ?_⟩
  · intro token h
    simpa [tokenInvalidated, h] using hInv
  · rcases hCases with ⟨t, hLA, hExp, hPV, _⟩ | ⟨hLA, hPV, _⟩ | ⟨hLA, hPV, _⟩
    · refine Or.inl ⟨t, hLA, ?_, hPV⟩
      rw [time.Since_gt_SessionTimeout] at hExp
      rw [SessionTimeout_eq]
      linarith
    · exact Or.inr ⟨hLA, Or.inr hPV⟩
    · exact Or.inr ⟨hLA, Or.inl hPV⟩

/-- C1, witness: the full session of `alice`, last active at `1000` and seen at `2000`. -/
theorem C1_bound_user_only_if_witness :
    (GetContext SessionInvalidation.init Sample.users 2000 (some (Sample.full 1000 3))
        Sample.fresh).user = some Sample.alice
      ∧ ((∃ i, (GetContext.session (some (Sample.full 1000 3)) Sample.fresh).Values "id"
            = some (Value.int64 i) ∧ Sample.users i = some Sample.alice)
        ∧ (∀ token, (GetContext.session (some (Sample.full 1000 3)) Sample.fresh).Values
              "sessionToken" = some (Value.string token) →
            IsSessionInvalidated SessionInvalidation.init token = false)
        ∧ ((∃ t, (GetContext.session (some (Sample.full 1000 3)) Sample.fresh).Values
                "lastActivity" = some (Value.time t)
              ∧ 2000 - t ≤ SessionTimeout
              ∧ (GetContext.session (some (Sample.full 1000 3)) Sample.fresh).Values
                "passwordVersion" = some (Value.int64 Sample.alice.PasswordVersion))
          ∨ ((GetContext.session (some (Sample.full 1000 3)) Sample.fresh).Values
                "lastActivity" = none
              ∧ ((GetContext.session (some (Sample.full 1000 3)) Sample.fresh).Values
                  "passwordVersion" = none
                ∨ (GetContext.session (some (Sample.full 1000 3)) Sample.fresh).Values
                  "passwordVersion" = some (Value.int64 Sample.alice.PasswordVersion))))) :=
  ⟨by decide,
    C1_bound_user_only_if SessionInvalidation.init Sample.users 2000
      (some (Sample.full 1000 3)) Sample.fresh Sample.alice (by decide)⟩

/-- C2: when the session token is a string held in the revocation registry, `GetContext`
invokes the handler with a nil user and with `id`, `lastActivity`, `passwordVersion` and
`sessionToken` removed from the session (every other key untouched); the outcome is the
same for every clock value, every other session value and every user repository. -/
theorem C2_revoked_token_is_terminal (reg : SessionInvalidation)
    (GetUser : Int → Option User) (now : Time) (storeGet : Option Session)
    (storeNew : Session) (token : String)
    (hToken : (GetContext.session storeGet storeNew).Values "sessionToken"
      = some (Value.string token))
    (hRevoked : IsSessionInvalidated reg token = true) :
    GetContext reg GetUser now storeGet storeNew
        = .served (GetContext.session storeGet storeNew).clearRevoked none
      ∧ (GetContext.session storeGet storeNew).clearRevoked.Values "id" = none
      ∧ (GetContext.session storeGet storeNew).clearRevoked.Values "lastActivity" = none
      ∧ (GetContext.session storeGet storeNew).clearRevoked.Values "passwordVersion" = none
      ∧ (GetContext.session storeGet storeNew).clearRevoked.Values "sessionToken" = none
      ∧ ∀ key, key ≠ "id" → key ≠ "lastActivity" → key ≠ "passwordVersion" →
          key ≠ "sessionToken" →
          (GetContext.session storeGet storeNew).clearRevoked.Values key
            = (GetContext.session storeGet storeNew).Values key := by
  refine ⟨?_, ?_, ?_, ?_, ?_, ?_⟩
  · simp [GetContext, tokenInvalidated, hToken, hRevoked]
  · simp [Session.clearRevoked, ValueMap.delete]
  · simp [Session.clearRevoked, ValueMap.delete]
  · simp [Session.clearRevoked, ValueMap.delete]
  · simp [Session.clearRevoked, ValueMap.delete]
  · intro key h1 h2 h3 h4
    simp [Session.clearRevoked, ValueMap.delete, h1, h2, h3, h4]

/-- C2, witness: the full session of `alice` presented after its token was revoked,
while its `lastActivity` is still fresh. -/
theorem C2_revoked_token_is_terminal_witness :
    (GetContext.session (some (Sample.full 1000 3)) Sample.fresh).Values "sessionToken"
        = some (Value.string "tok")
      ∧ IsSessionInvalidated Sample.revoked "tok" = true
      ∧ (GetContext Sample.revoked Sample.users 2000 (some (Sample.full 1000 3)) Sample.fresh).user
        = none :=
  ⟨by decide, by decide, by
    rw [(C2_revoked_token_is_terminal Sample.revoked Sample.users 2000
      (some (Sample.full 1000 3)) Sample.fresh "tok" (by decide) (by decide)).1]
    rfl⟩

/-- C3: for every registry state, instant and token, right after `InvalidateSession` the
token is reported as invalidated: the sweep of the same call keeps the fresh entry. -/
theorem C3_invalidated_right_after_InvalidateSession (reg : SessionInvalidation)
    (now : Time) (t : String) :
    IsSessionInvalidated (InvalidateSession reg now t) t = true := by
  simp [IsSessionInvalidated, InvalidateSession, time.Before, time.Add, time.Hour,
    time.Minute, time.Second, time.Millisecond, time.Microsecond, time.Nanosecond]

/-- C4: when the session carries a `passwordVersion` that is not the current
`PasswordVersion` of the user its `id` identifies, `GetContext` runs the handler with a
nil user and a cleared session, whether `lastActivity` is present or absent. -/
theorem C4_stale_password_version_is_anonymous (reg : SessionInvalidation)
    (GetUser : Int → Option User) (now : Time) (storeGet : Option Session)
    (storeNew : Session) (i : Int) (u : User) (v : Value)
    (hId : (GetContext.session storeGet storeNew).Values "id" = some (Value.int64 i))
    (hUser : GetUser i = some u)
    (hVersion : (GetContext.session storeGet storeNew).Values "passwordVersion" = some v)
    (hStale : v ≠ Value.int64 u.PasswordVersion) :
    (GetContext reg GetUser now storeGet storeNew).user = none
      ∧ (GetContext reg GetUser now storeGet storeNew
            = .served (GetContext.session storeGet storeNew).clearRevoked none
        ∨ GetContext reg GetUser now storeGet storeNew
            = .served (GetContext.session storeGet storeNew).clearIdentity none) := by
  have key : GetContext reg GetUser now storeGet storeNew
            = .served (GetContext.session storeGet storeNew).clearRevoked none
        ∨ GetContext reg GetUser now storeGet storeNew
            = .served (GetContext.session storeGet storeNew).clearIdentity none := by
    unfold GetContext
    generalize GetContext.session storeGet storeNew = s at hId hVersion ⊢
    by_cases hInv : tokenInvalidated reg s = true
    · simp [hInv]
    · right
      simp only [hInv, hId, hVersion, hUser]
      have hv : ∀ w, v = Value.int64 w → w ≠ u.PasswordVersion := by
        intro w hw hEq
        exact hStale (by rw [hw, hEq])
      cases hLA : s.Values "lastActivity" with
      | none =>
        cases v with
        | int64 w => simp [hv w rfl]
        | string _ => simp
        | time _ => simp
        | other _ => simp
      | some la =>
        cases la with
        | time t =>
          by_cases hExp : time.Since now t > SessionTimeout
          · simp [hExp]
          · cases v with
            | int64 w => simp [hExp, hv w rfl]
            | string _ => simp [hExp]
            | time _ => simp [hExp]
            | other _ => simp [hExp]
        | int64 _ => simp
        | string _ => simp
        | other _ => simp
  refine ⟨?_, key⟩
  rcases key with h | h <;> rw [h] <;> rfl

/-- C4, witness: the session of `alice` stamped with version `2` while her current
version is `3`. -/
theorem C4_stale_password_version_is_anonymous_witness :
    (GetContext.session (some (Sample.full 1000 2)) Sample.fresh).Values "id"
        = some (Value.int64 1)
      ∧ Sample.users 1 = some Sample.alice
      ∧ (GetContext.session (some (Sample.full 1000 2)) Sample.fresh).Values "passwordVersion"
        = some (Value.int64 2)
      ∧ Value.int64 2 ≠ Value.int64 Sample.alice.PasswordVersion
      ∧ (GetContext SessionInvalidation.init Sample.users 2000 (some (Sample.full 1000 2))
          Sample.fresh).user = none :=
  ⟨by decide, by decide, by decide, by decide,
    (C4_stale_password_version_is_anonymous SessionInvalidation.init Sample.users 2000
      (some (Sample.full 1000 2)) Sample.fresh 1 Sample.alice (Value.int64 2)
      (by decide) (by decide) (by decide) (by decide)).1⟩

/-- C5: for a session with a timestamp `lastActivity` (an `id` whose user has the stored
password version, no revoked token), `GetContext` anonymises the request exactly when
`now - lastActivity` is strictly greater than 15 minutes, and `RequireAPIKey` answers
"Session expired" exactly in the same case; at exactly 15 minutes the session is still
valid, one microsecond later it is expired. -/
theorem C5_inactivity_window_is_closed (reg : SessionInvalidation)
    (GetUser : Int → Option User) (GetUserByAPIKey : String → Option User) (now : Time)
    (storeGet : Option Session) (storeNew : Session) (i : Int) (u : User) (t : Time)
    (method : String) (ctxUser : Option User) (formKey : String)
    (authorization : Option (List String))
    (hMethod : method ≠ "OPTIONS")
    (hToken : tokenInvalidated reg (GetContext.session storeGet storeNew) = false)
    (hId : (GetContext.session storeGet storeNew).Values "id" = some (Value.int64 i))
    (hLast : (GetContext.session storeGet storeNew).Values "lastActivity" = some (Value.time t))
    (hUser : GetUser i = some u)
    (hVersion : (GetContext.session storeGet storeNew).Values "passwordVersion"
      = some (Value.int64 u.PasswordVersion)) :
    ((GetContext reg GetUser now storeGet storeNew).user = none ↔ now - t > 15 * time.Minute)
    ∧ ((GetContext reg GetUser now storeGet storeNew).user = some u
        ↔ now - t ≤ 15 * time.Minute)
    ∧ (RequireAPIKey reg GetUserByAPIKey now method (some (GetContext.session storeGet storeNew))
          ctxUser formKey authorization = .jsonError 401 "Session expired"
        ↔ now - t > 15 * time.Minute)
    ∧ (now - t = 15 * time.Minute →
        (GetContext reg GetUser now storeGet storeNew).user = some u
        ∧ RequireAPIKey reg GetUserByAPIKey now method
            (some (GetContext.session storeGet storeNew)) ctxUser formKey authorization
          ≠ .jsonError 401 "Session expired")
    ∧ (now - t = 15 * time.Minute + time.Microsecond →
        (GetContext reg GetUser now storeGet storeNew).user = none
        ∧ RequireAPIKey reg GetUserByAPIKey now method
            (some (GetContext.session storeGet storeNew)) ctxUser formKey authorization
          = .jsonError 401 "Session expired") := by
  have hMin : (15 : Int) * time.Minute = 900000000000 := by
    norm_num [time.Minute, time.Second, time.Millisecond, time.Microsecond, time.Nanosecond]
  have hMic : time.Microsecond = 1000 := by norm_num [time.Microsecond, time.Nanosecond]
  have hT := time.Since_gt_SessionTimeout now t
  have hG1 : now - t > 900000000000 →
      GetContext reg GetUser now storeGet storeNew
        = .served (GetContext.session storeGet storeNew).clearIdentity none := by
    intro h
    unfold GetContext
    simp [hToken, hId, hLast, hT.mpr h]
  have hG2 : ¬ now - t > 900000000000 →
      (GetContext reg GetUser now storeGet storeNew).user = some u := by
    intro h
    have h2 : ¬ time.Since now t > SessionTimeout := fun h3 => h (hT.mp h3)
    unfold GetContext
    simp [hToken, hId, hLast, h2, hUser, hVersion, GetContext.Result.user]
  have hR1 : now - t > 900000000000 →
      RequireAPIKey reg GetUserByAPIKey now method
          (some (GetContext.session storeGet storeNew)) ctxUser formKey authorization
        = .jsonError 401 "Session expired" := by
    intro h
    unfold RequireAPIKey
    simp [hMethod, hToken, hId, hLast, hT.mpr h, StatusUnauthorized]
  have hR2 : ¬ now - t > 900000000000 →
      RequireAPIKey reg GetUserByAPIKey now method
          (some (GetContext.session storeGet storeNew)) ctxUser formKey authorization
        ≠ .jsonError 401 "Session expired" := by
    intro h
    have h2 : ¬ time.Since now t > SessionTimeout := fun h3 => h (hT.mp h3)
    unfold RequireAPIKey
    simp only [hMethod, hToken, hId, hLast, h2, if_false, Bool.false_eq_true]
    cases ctxUser with
    | none => simp
    | some w =>
      simp only []
      split_ifs <;> try simp
      cases GetUserByAPIKey (RequireAPIKey.apiKey formKey authorization) with
      | none => simp
      | some a => simp only []; split_ifs <;> simp
  rw [hMin, hMic]
  refine ⟨⟨?_, ?_⟩, ⟨?_, ?_⟩, ⟨?_, hR1⟩, ?_, ?_⟩
  · intro h
    by_contra hc
    rw [hG2 hc] at h
    exact absurd h (by simp)
  · intro h
    rw [hG1 h]
    rfl
  · intro h
    by_contra hc
    rw [hG1 (by linarith)] at h
    simp [GetContext.Result.user] at h
  · intro h
    exact hG2 (by linarith)
  · intro h
    by_contra hc
    exact hR2 hc h
  · intro h
    exact ⟨hG2 (by linarith), hR2 (by linarith)⟩
  · intro h
    refine ⟨?_, hR1 (by linarith)⟩
    rw [hG1 (by linarith)]
    rfl

/-- C5, witness: the session of `alice` last active at `0`, seen exactly 15 minutes
later. -/
theorem C5_inactivity_window_is_closed_witness :
    "GET" ≠ "OPTIONS"
      ∧ tokenInvalidated SessionInvalidation.init
          (GetContext.session (some (Sample.full 0 3)) Sample.fresh) = false
      ∧ (GetContext.session (some (Sample.full 0 3)) Sample.fresh).Values "id"
          = some (Value.int64 1)
      ∧ (GetContext.session (some (Sample.full 0 3)) Sample.fresh).Values "lastActivity"
          = some (Value.time 0)
      ∧ Sample.users 1 = some Sample.alice
      ∧ (GetContext.session (some (Sample.full 0 3)) Sample.fresh).Values "passwordVersion"
          = some (Value.int64 Sample.alice.PasswordVersion)
      ∧ ((900000000000 : Int) - 0 = 15 * time.Minute)
      ∧ (GetContext SessionInvalidation.init Sample.users 900000000000
          (some (Sample.full 0 3)) Sample.fresh).user = some Sample.alice :=
  ⟨by decide, by decide, by decide, by decide, by decide, by decide, by decide,
    ((C5_inactivity_window_is_closed SessionInvalidation.init Sample.users Sample.keys
      900000000000 (some (Sample.full 0 3)) Sample.fresh 1 Sample.alice 0 "GET"
      (some Sample.alice) "key-alice" none
      (by decide) (by decide) (by decide) (by decide) (by decide) (by decide)).2.2.2.1
      (by decide)).1⟩

/-- C6: on a non-OPTIONS request whose session is valid for user `B` (its `id` is the
identifier of `B`, no revoked token, `lastActivity` inside the window, `B` in the
context), an API key that resolves to a user `A` with another identifier is answered
with 403 and the downstream handler is not invoked. -/
theorem C6_api_key_of_another_user_is_forbidden (reg : SessionInvalidation)
    (GetUserByAPIKey : String → Option User) (now : Time) (method : String)
    (session : Session) (formKey : String) (authorization : Option (List String))
    (t : Time) (A B : User)
    (hMethod : method ≠ "OPTIONS")
    (hId : session.Values "id" = some (Value.int64 B.Id))
    (hToken : tokenInvalidated reg session = false)
    (hLast : session.Values "lastActivity" = some (Value.time t))
    (hFresh : now - t ≤ 15 * time.Minute)
    (hKey : RequireAPIKey.apiKey formKey authorization ≠ "")
    (hOwner : GetUserByAPIKey (RequireAPIKey.apiKey formKey authorization) = some A)
    (hOther : A.Id ≠ B.Id) :
    RequireAPIKey reg GetUserByAPIKey now method (some session) (some B) formKey authorization
        = .jsonError 403 "API key does not belong to current session user"
      ∧ ∀ u uid ak, RequireAPIKey reg GetUserByAPIKey now method (some session) (some B)
          formKey authorization ≠ .next u uid ak := by
  have hMin : (15 : Int) * time.Minute = 900000000000 := by
    norm_num [time.Minute, time.Second, time.Millisecond, time.Microsecond, time.Nanosecond]
  have hExp : ¬ time.Since now t > SessionTimeout := by
    rw [time.Since_gt_SessionTimeout]
    rw [hMin] at hFresh
    linarith
  have h : RequireAPIKey reg GetUserByAPIKey now method (some session) (some B) formKey
      authorization = .jsonError 403 "API key does not belong to current session user" := by
    unfold RequireAPIKey
    simp [hMethod, hId, hToken, hLast, hExp, hKey, hOwner, hOther, StatusForbidden]
  refine ⟨h, ?_⟩
  intro u uid ak
  rw [h]
  simp

/-- C6, witness: `bob` is logged in and presents the API key of `alice`. -/
theorem C6_api_key_of_another_user_is_forbidden_witness :
    RequireAPIKey SessionInvalidation.init Sample.keys 2000 "GET"
        (some ⟨(ValueMap.empty.set "id" (Value.int64 2)).set "lastActivity" (Value.time 1000),
          900⟩)
        (some Sample.bob) "key-alice" none
      = .jsonError 403 "API key does not belong to current session user" :=
  (C6_api_key_of_another_user_is_forbidden SessionInvalidation.init Sample.keys 2000 "GET"
    ⟨(ValueMap.empty.set "id" (Value.int64 2)).set "lastActivity" (Value.time 1000), 900⟩
    "key-alice" none 1000 Sample.alice Sample.bob
    (by decide) (by decide) (by decide) (by decide) (by decide) (by decide) (by decide)
    (by decide)).1

/-- C7: on a non-OPTIONS request `RequireAPIKey` invokes the downstream handler exactly
when the eight preconditions hold; otherwise the first precondition that fails, in the
listed order, decides the response, which is a 401 for preconditions 1 to 7 (and, for
precondition 8, a 403 or the panic of the `int64` assertion on the session `id`). -/
theorem C7_checks_in_listed_order (reg : SessionInvalidation)
    (GetUserByAPIKey : String → Option User) (now : Time) (method : String)
    (ctxSession : Option Session) (ctxUser : Option User) (formKey : String)
    (authorization : Option (List String)) (resp : Response)
    (hMethod : method ≠ "OPTIONS")
    (hResp : RequireAPIKey reg GetUserByAPIKey now method ctxSession ctxUser formKey
      authorization = resp) :
    ((∃ u uid ak, resp = .next u uid ak) ↔
        (RequireAPIKey.pre1 ctxSession = true
          ∧ RequireAPIKey.pre2 ctxSession = true
          ∧ RequireAPIKey.pre3 reg ctxSession = true
          ∧ RequireAPIKey.pre4 now ctxSession = true
          ∧ RequireAPIKey.pre5 ctxUser = true
          ∧ RequireAPIKey.pre6 formKey authorization = true
          ∧ RequireAPIKey.pre7 GetUserByAPIKey formKey authorization = true
          ∧ RequireAPIKey.pre8 GetUserByAPIKey ctxSession ctxUser formKey authorization = true))
    ∧ (RequireAPIKey.pre1 ctxSession = false →
        resp = .jsonError 401 "Session required for API access")
    ∧ (RequireAPIKey.pre1 ctxSession = true → RequireAPIKey.pre2 ctxSession = false →
        resp = .jsonError 401 "Valid session required for API access")
    ∧ (RequireAPIKey.pre1 ctxSession = true → RequireAPIKey.pre2 ctxSession = true →
        RequireAPIKey.pre3 reg ctxSession = false →
        resp = .jsonError 401 "Session has been invalidated")
    ∧ (RequireAPIKey.pre1 ctxSession = true → RequireAPIKey.pre2 ctxSession = true →
        RequireAPIKey.pre3 reg ctxSession = true → RequireAPIKey.pre4 now ctxSession = false →
        resp = .jsonError 401 "Invalid session state"
          ∨ resp = .jsonError 401 "Session expired")
    ∧ (RequireAPIKey.pre1 ctxSession = true → RequireAPIKey.pre2 ctxSession = true →
        RequireAPIKey.pre3 reg ctxSession = true → RequireAPIKey.pre4 now ctxSession = true →
        RequireAPIKey.pre5 ctxUser = false →
        resp = .jsonError 401 "Valid session user required for API access")
    ∧ (RequireAPIKey.pre1 ctxSession = true → RequireAPIKey.pre2 ctxSession = true →
        RequireAPIKey.pre3 reg ctxSession = true → RequireAPIKey.pre4 now ctxSession = true →
        RequireAPIKey.pre5 ctxUser = true → RequireAPIKey.pre6 formKey authorization = false →
        resp = .jsonError 401 "API Key not set")
    ∧ (RequireAPIKey.pre1 ctxSession = true → RequireAPIKey.pre2 ctxSession = true →
        RequireAPIKey.pre3 reg ctxSession = true → RequireAPIKey.pre4 now ctxSession = true →
        RequireAPIKey.pre5 ctxUser = true → RequireAPIKey.pre6 formKey authorization = true →
        RequireAPIKey.pre7 GetUserByAPIKey formKey authorization = false →
        resp = .jsonError 401 "Invalid API Key")
    ∧ (RequireAPIKey.pre1 ctxSession = true → RequireAPIKey.pre2 ctxSession = true →
        RequireAPIKey.pre3 reg ctxSession = true → RequireAPIKey.pre4 now ctxSession = true →
        RequireAPIKey.pre5 ctxUser = true → RequireAPIKey.pre6 formKey authorization = true →
        RequireAPIKey.pre7 GetUserByAPIKey formKey authorization = true →
        RequireAPIKey.pre8 GetUserByAPIKey ctxSession ctxUser formKey authorization = false →
        (∃ m, resp = .jsonError 403 m) ∨ resp = .panic) := by
  subst hResp
  have hMin : (15 : Int) * time.Minute = 900000000000 := by
    norm_num [time.Minute, time.Second, time.Millisecond, time.Microsecond, time.Nanosecond]
  cases ctxSession with
  | none =>
    simp [RequireAPIKey, hMethod, RequireAPIKey.pre1, RequireAPIKey.pre2, StatusUnauthorized]
  | some s =>
    have h3 : RequireAPIKey.pre3 reg (some s) = !tokenInvalidated reg s := by
      simp only [RequireAPIKey.pre3, tokenInvalidated]
      split <;> simp
    cases hId : s.Values "id" with
    | none =>
      simp [RequireAPIKey, hMethod, RequireAPIKey.pre1, RequireAPIKey.pre2, hId,
        StatusUnauthorized]
    | some id =>
      cases hInv : tokenInvalidated reg s with
      | true =>
        simp [RequireAPIKey, hMethod, RequireAPIKey.pre1, RequireAPIKey.pre2, hId, h3, hInv,
          StatusUnauthorized]
      | false =>
        have hLate : ∀ t, RequireAPIKey.pre4 now (some s) = false →
            s.Values "lastActivity" = some (Value.time t) →
            time.Since now t > SessionTimeout := by
          intro t h4 hLA
          simp only [RequireAPIKey.pre4, hLA, hMin, decide_eq_false_iff_not] at h4
          rw [time.Since_gt_SessionTimeout]
          linarith
        have hEarly : ∀ t, RequireAPIKey.pre4 now (some s) = true →
            s.Values "lastActivity" = some (Value.time t) →
            ¬ time.Since now t > SessionTimeout := by
          intro t h4 hLA
          simp only [RequireAPIKey.pre4, hLA, hMin, decide_eq_true_eq] at h4
          rw [time.Since_gt_SessionTimeout]
          linarith
        cases hLA : s.Values "lastActivity" with
        | none =>
          simp [RequireAPIKey, hMethod, RequireAPIKey.pre1, RequireAPIKey.pre2,
            RequireAPIKey.pre4, hId, h3, hInv, hLA, StatusUnauthorized]
        | some la =>
          cases la with
          | time t =>
            cases h4 : RequireAPIKey.pre4 now (some s) with
            | false =>
              simp [RequireAPIKey, hMethod, RequireAPIKey.pre1, RequireAPIKey.pre2, hId, h3,
                hInv, hLA, hLate t h4 hLA, StatusUnauthorized]
            | true =>
              have hE := hEarly t h4 hLA
              cases ctxUser with
              | none =>
                simp [RequireAPIKey, hMethod, RequireAPIKey.pre1, RequireAPIKey.pre2,
                  RequireAPIKey.pre5, hId, h3, hInv, hLA, hE, StatusUnauthorized]
              | some w =>
                by_cases hKey : RequireAPIKey.apiKey formKey authorization = ""
                · simp [RequireAPIKey, hMethod, RequireAPIKey.pre1, RequireAPIKey.pre2,
                    RequireAPIKey.pre5, RequireAPIKey.pre6, hId, h3, hInv, hLA, hE, hKey,
                    StatusUnauthorized]
                · cases hOwner : GetUserByAPIKey (RequireAPIKey.apiKey formKey authorization) with
                  | none =>
                    simp [RequireAPIKey, hMethod, RequireAPIKey.pre1, RequireAPIKey.pre2,
                      RequireAPIKey.pre5, RequireAPIKey.pre6, RequireAPIKey.pre7, hId, h3, hInv,
                      hLA, hE, hKey, hOwner, StatusUnauthorized]
                  | some a =>
                    cases id with
                    | int64 i =>
                      by_cases h1 : a.Id = i
                      · by_cases h2 : a.Id = w.Id
                        · have h2b : i = w.Id := by rw [← h1]; exact h2
                          simp [RequireAPIKey, hMethod, RequireAPIKey.pre1, RequireAPIKey.pre2,
                            RequireAPIKey.pre5, RequireAPIKey.pre6, RequireAPIKey.pre7,
                            RequireAPIKey.pre8, hId, h3, hInv, hLA, hE, hKey, hOwner, h1, h2b,
                            StatusUnauthorized, StatusForbidden]
                        · have h2b : ¬ i = w.Id := by rw [← h1]; exact h2
                          simp [RequireAPIKey, hMethod, RequireAPIKey.pre1, RequireAPIKey.pre2,
                            RequireAPIKey.pre5, RequireAPIKey.pre6, RequireAPIKey.pre7,
                            RequireAPIKey.pre8, hId, h3, hInv, hLA, hE, hKey, hOwner, h1, h2b,
                            StatusUnauthorized, StatusForbidden]
                      · have h1b : ¬ i = a.Id := fun h => h1 h.symm
                        simp [RequireAPIKey, hMethod, RequireAPIKey.pre1, RequireAPIKey.pre2,
                          RequireAPIKey.pre5, RequireAPIKey.pre6, RequireAPIKey.pre7,
                          RequireAPIKey.pre8, hId, h3, hInv, hLA, hE, hKey, hOwner, h1, h1b,
                          StatusUnauthorized, StatusForbidden]
                    | string _ =>
                      simp [RequireAPIKey, hMethod, RequireAPIKey.pre1, RequireAPIKey.pre2,
                        RequireAPIKey.pre5, RequireAPIKey.pre6, RequireAPIKey.pre7,
                        RequireAPIKey.pre8, hId, h3, hInv, hLA, hE, hKey, hOwner,
                        StatusUnauthorized, StatusForbidden]
                    | time _ =>
                      simp [RequireAPIKey, hMethod, RequireAPIKey.pre1, RequireAPIKey.pre2,
                        RequireAPIKey.pre5, RequireAPIKey.pre6, RequireAPIKey.pre7,
                        RequireAPIKey.pre8, hId, h3, hInv, hLA, hE, hKey, hOwner,
                        StatusUnauthorized, StatusForbidden]
                    | other _ =>
                      simp [RequireAPIKey, hMethod, RequireAPIKey.pre1, RequireAPIKey.pre2,
                        RequireAPIKey.pre5, RequireAPIKey.pre6, RequireAPIKey.pre7,
                        RequireAPIKey.pre8, hId, h3, hInv, hLA, hE, hKey, hOwner,
                        StatusUnauthorized, StatusForbidden]
          | int64 _ =>
            simp [RequireAPIKey, hMethod, RequireAPIKey.pre1, RequireAPIKey.pre2,
              RequireAPIKey.pre4, hId, h3, hInv, hLA, StatusUnauthorized]
          | string _ =>
            simp [RequireAPIKey, hMethod, RequireAPIKey.pre1, RequireAPIKey.pre2,
              RequireAPIKey.pre4, hId, h3, hInv, hLA, StatusUnauthorized]
          | other _ =>
            simp [RequireAPIKey, hMethod, RequireAPIKey.pre1, RequireAPIKey.pre2,
              RequireAPIKey.pre4, hId, h3, hInv, hLA, StatusUnauthorized]

/-- C7, witness: `alice`, logged in and active, presents her own key with a GET. -/
theorem C7_checks_in_listed_order_witness :
    "GET" ≠ "OPTIONS"
      ∧ RequireAPIKey SessionInvalidation.init Sample.keys 2000 "GET"
          (some (Sample.full 1000 3)) (some Sample.alice) "key-alice" none
        = .next Sample.alice 1 "key-alice"
      ∧ (RequireAPIKey.pre1 (some (Sample.full 1000 3)) = true
          ∧ RequireAPIKey.pre2 (some (Sample.full 1000 3)) = true
          ∧ RequireAPIKey.pre3 SessionInvalidation.init (some (Sample.full 1000 3)) = true
          ∧ RequireAPIKey.pre4 2000 (some (Sample.full 1000 3)) = true
          ∧ RequireAPIKey.pre5 (some Sample.alice) = true
          ∧ RequireAPIKey.pre6 "key-alice" none = true
          ∧ RequireAPIKey.pre7 Sample.keys "key-alice" none = true
          ∧ RequireAPIKey.pre8 Sample.keys (some (Sample.full 1000 3)) (some Sample.alice)
              "key-alice" none = true) :=
  ⟨by decide, by decide,
    (C7_checks_in_listed_order SessionInvalidation.init Sample.keys 2000 "GET"
      (some (Sample.full 1000 3)) (some Sample.alice) "key-alice" none
      (.next Sample.alice 1 "key-alice") (by decide) (by decide)).1.mp ⟨_, _, _, rfl⟩⟩

/-- C9, counterexample: the empty password is shorter than 12 characters and is answered
with `ErrEmptyPassword`; a password of seven two-byte characters is shorter than 12
characters and is answered with `ErrPasswordNoUppercase`. -/
theorem C9_counterexample_empty_and_multibyte :
    ("".length < 12
        ∧ CheckPasswordPolicy Sample.tables "" = some Error.ErrEmptyPassword
        ∧ CheckPasswordPolicy Sample.tables "" ≠ some Error.ErrPasswordTooShort)
      ∧ ("ééééééé".length < 12
        ∧ CheckPasswordPolicy Sample.tables "ééééééé" = some Error.ErrPasswordNoUppercase
        ∧ CheckPasswordPolicy Sample.tables "ééééééé" ≠ some Error.ErrPasswordTooShort) := by
  decide

/-- C9 as amended: every non-empty password whose length in bytes is below 12 is answered
with `ErrPasswordTooShort`, whatever characters it is made of and whatever the tables
of `unicode` say. -/
theorem C9_short_nonempty_password_too_short (T : unicode.Tables) (password : String)
    (hNonEmpty : password ≠ "") (hShort : password.utf8ByteSize < 12) :
    CheckPasswordPolicy T password = some Error.ErrPasswordTooShort := by
  unfold CheckPasswordPolicy
  simp [hNonEmpty, MinPasswordLength, hShort]

/-- C9, witness: the password `short` of the repository's test. -/
theorem C9_short_nonempty_password_too_short_witness :
    "short" ≠ "" ∧ "short".utf8ByteSize < 12
      ∧ CheckPasswordPolicy Sample.tables "short" = some Error.ErrPasswordTooShort :=
  ⟨by decide, by decide,
    C9_short_nonempty_password_too_short Sample.tables "short" (by decide) (by decide)⟩

/-- C10: a password of at least 12 characters that contains an uppercase letter `A`-`Z`,
a lowercase letter `a`-`z`, a digit `0`-`9` and one of the special characters is
accepted (`nil`), whatever its other characters and whatever the tables of `unicode`
say above Latin-1. -/
theorem C10_policy_accepts_strong_password (T : unicode.Tables) (password : String)
    (hLength : 12 ≤ password.length)
    (hUpper : ∃ c ∈ password.data, 'A' ≤ c ∧ c ≤ 'Z')
    (hLower : ∃ c ∈ password.data, 'a' ≤ c ∧ c ≤ 'z')
    (hDigit : ∃ c ∈ password.data, '0' ≤ c ∧ c ≤ '9')
    (hSpecial : ∃ c ∈ password.data, c ∈ specialChars.data) :
    CheckPasswordPolicy T password = none := by
  have hNonEmpty : password ≠ "" := by
    intro h
    rw [h] at hLength
    simp at hLength
  have hLong : ¬ password.utf8ByteSize < MinPasswordLength := by
    have := String.length_le_utf8ByteSize password
    unfold MinPasswordLength
    omega
  rw [CheckPasswordPolicy_of_long T password hNonEmpty hLong]
  obtain ⟨cU, hUm, hU⟩ := hUpper
  obtain ⟨cL, hLm, hL⟩ := hLower
  obtain ⟨cD, hDm, hD⟩ := hDigit
  obtain ⟨cS, hSm, hS⟩ := hSpecial
  have h1 : password.data.any (fun c => unicode.IsUpper T c) = true :=
    List.any_eq_true.mpr ⟨cU, hUm, (unicode.ascii_classes T cU).1 hU⟩
  have h2 : password.data.any (fun c => !unicode.IsUpper T c && unicode.IsLower T c)
      = true := by
    obtain ⟨a, b⟩ := (unicode.ascii_classes T cL).2.1 hL
    exact List.any_eq_true.mpr ⟨cL, hLm, by simp [a, b]⟩
  have h3 : password.data.any (fun c => !unicode.IsUpper T c && !unicode.IsLower T c
      && unicode.IsNumber T c) = true := by
    obtain ⟨a, b, c⟩ := (unicode.ascii_classes T cD).2.2.1 hD
    exact List.any_eq_true.mpr ⟨cD, hDm, by simp [a, b, c]⟩
  have h4 : password.data.any (fun c => !unicode.IsUpper T c && !unicode.IsLower T c
      && !unicode.IsNumber T c && strings.ContainsRune specialChars c) = true := by
    obtain ⟨a, b, c, d⟩ := (unicode.ascii_classes T cS).2.2.2 hS
    exact List.any_eq_true.mpr ⟨cS, hSm, by simp [a, b, c, d]⟩
  simp [h1, h2, h3, h4]

/-- C10, witness: the password `MyStr0ng@Pass#word` of the repository's test. -/
theorem C10_policy_accepts_strong_password_witness :
    12 ≤ "MyStr0ng@Pass#word".length
      ∧ CheckPasswordPolicy Sample.tables "MyStr0ng@Pass#word" = none :=
  ⟨by decide,
    C10_policy_accepts_strong_password Sample.tables "MyStr0ng@Pass#word" (by decide)
      ⟨'M', by decide, by decide⟩ ⟨'y', by decide, by decide⟩ ⟨'0', by decide, by decide⟩
      ⟨'@', by decide, by decide⟩⟩

section PolicyLemmas

set_option maxRecDepth 100000 in
theorem unicode.latin1_disjoint : ∀ n, n ≤ 255 →
    (unicode.latin1Upper n = true →
        unicode.latin1Lower n = false ∧ unicode.latin1Number n = false)
    ∧ (unicode.latin1Lower n = true → unicode.latin1Number n = false) := by
  decide

/-- The three classes of `unicode` are pairwise disjoint when the range tables are. -/
theorem unicode.classes_disjoint (T : unicode.Tables) (hT : T.Disjoint) (c : Char) :
    (unicode.IsUpper T c = true → unicode.IsLower T c = false ∧ unicode.IsNumber T c = false)
    ∧ (unicode.IsLower T c = true → unicode.IsNumber T c = false) := by
  unfold unicode.IsUpper unicode.IsLower unicode.IsNumber unicode.MaxLatin1
  by_cases h : c.toNat ≤ 0xFF
  · simp only [h, if_true]
    exact unicode.latin1_disjoint c.toNat h
  · simp only [h, if_false]
    exact hT c

/-- With disjoint classes each case of the `switch` is taken exactly by the characters of
its class. -/
theorem CheckPasswordPolicy.switch_cases (T : unicode.Tables) (hT : T.Disjoint) (c : Char) :
    (!unicode.IsUpper T c && unicode.IsLower T c) = unicode.IsLower T c
    ∧ (!unicode.IsUpper T c && !unicode.IsLower T c && unicode.IsNumber T c)
        = unicode.IsNumber T c
    ∧ (!unicode.IsUpper T c && !unicode.IsLower T c && !unicode.IsNumber T c
        && strings.ContainsRune specialChars c) = specialChars.data.contains c := by
  obtain ⟨h1, h2⟩ := unicode.classes_disjoint T hT c
  have h3 := (unicode.ascii_classes T c).2.2.2
  cases hU : unicode.IsUpper T c <;> cases hL : unicode.IsLower T c <;>
    cases hN : unicode.IsNumber T c <;>
    cases hS : specialChars.data.contains c <;>
    simp_all [strings.ContainsRune]

end PolicyLemmas

/-- C11: `CheckPasswordPolicy` returns the error of the earliest violated rule in the order
empty, too short, no uppercase, no lowercase, no number, no special character, and `nil`
when no rule is violated, whichever later rules are violated too; in particular a
password of 12 bytes or more without uppercase letter yields `ErrPasswordNoUppercase`
whether or not it has a digit. -/
theorem C11_first_violated_rule_wins (T : unicode.Tables) (password : String)
    (hT : T.Disjoint) :
    CheckPasswordPolicy T password
        = (PolicyRule.firstViolated T password).map PolicyRule.error
      ∧ (PolicyRule.violated T password .empty = false →
          PolicyRule.violated T password .tooShort = false →
          PolicyRule.violated T password .noUppercase = true →
          CheckPasswordPolicy T password = some Error.ErrPasswordNoUppercase) := by
  have hSw := CheckPasswordPolicy.switch_cases T hT
  have e1 : (fun c => !unicode.IsUpper T c && unicode.IsLower T c)
      = (fun c => unicode.IsLower T c) := funext (fun c => (hSw c).1)
  have e2 : (fun c => !unicode.IsUpper T c && !unicode.IsLower T c && unicode.IsNumber T c)
      = (fun c => unicode.IsNumber T c) := funext (fun c => (hSw c).2.1)
  have e3 : (fun c => !unicode.IsUpper T c && !unicode.IsLower T c && !unicode.IsNumber T c
        && strings.ContainsRune specialChars c)
      = (fun c => specialChars.data.contains c) := funext (fun c => (hSw c).2.2)
  by_cases hE : password = ""
  · subst hE
    constructor
    · rfl
    · intro h
      simp [PolicyRule.violated] at h
  by_cases hS : password.utf8ByteSize < 12
  · constructor
    · simp [CheckPasswordPolicy, hE, hS, MinPasswordLength, PolicyRule.firstViolated,
        PolicyRule.order, PolicyRule.violated, PolicyRule.error]
    · intro _ h
      simp [PolicyRule.violated, hS] at h
  have hLong : ¬ password.utf8ByteSize < MinPasswordLength := hS
  rw [CheckPasswordPolicy_of_long T password hE hLong, e1, e2, e3]
  simp only [PolicyRule.firstViolated, PolicyRule.order, List.find?, PolicyRule.violated]
  generalize password.data.any (fun c => unicode.IsUpper T c) = a1
  generalize password.data.any (fun c => unicode.IsLower T c) = a2
  generalize password.data.any (fun c => unicode.IsNumber T c) = a3
  generalize password.data.any (fun c => specialChars.data.contains c) = a4
  cases a1 <;> cases a2 <;> cases a3 <;> cases a4 <;> simp [hE, hS, PolicyRule.error]

/-- C11, witness: a password of 17 bytes that lacks both an uppercase letter and a
digit. -/
theorem C11_first_violated_rule_wins_witness :
    Sample.tables.Disjoint
      ∧ PolicyRule.violated Sample.tables "validpassword!!!!" .noUppercase = true
      ∧ PolicyRule.violated Sample.tables "validpassword!!!!" .noNumber = true
      ∧ CheckPasswordPolicy Sample.tables "validpassword!!!!"
        = some Error.ErrPasswordNoUppercase :=
  ⟨fun _ => ⟨fun h => by simp [Sample.tables] at h, fun h => by simp [Sample.tables] at h⟩,
    by decide, by decide,
    (C11_first_violated_rule_wins Sample.tables "validpassword!!!!"
      (fun _ => ⟨fun h => by simp [Sample.tables] at h,
        fun h => by simp [Sample.tables] at h⟩)).2
      (by decide) (by decide) (by decide)⟩

/-- C12, the code at the failing inputs: a password of 8 characters (12 bytes) is
accepted, and so is a password of 12 characters that has no letter `A`-`Z`, no letter
`a`-`z` and no digit `0`-`9`. -/
theorem C12_accepts_outside_documented_policy :
    (CheckPasswordPolicy Sample.tables "Aa1!éééé" = none
        ∧ "Aa1!éééé".length = 8
        ∧ "Aa1!éééé".utf8ByteSize = 12)
      ∧ (CheckPasswordPolicy Sample.tables "Éé²!ÉÉÉÉÉÉÉÉ" = none
        ∧ "Éé²!ÉÉÉÉÉÉÉÉ".length = 12
        ∧ (∀ c ∈ "Éé²!ÉÉÉÉÉÉÉÉ".data, ¬ ('A' ≤ c ∧ c ≤ 'Z'))
        ∧ (∀ c ∈ "Éé²!ÉÉÉÉÉÉÉÉ".data, ¬ ('a' ≤ c ∧ c ≤ 'z'))
        ∧ (∀ c ∈ "Éé²!ÉÉÉÉÉÉÉÉ".data, ¬ ('0' ≤ c ∧ c ≤ '9'))) := by
  decide

/-- C13: when the new password passes the policy and the confirmation differs from it,
`ValidatePasswordChange` returns the empty hash and `ErrPasswordMismatch`, whatever the
current hash is and whether or not the new password verifies against it. -/
theorem C13_mismatch_before_reuse (T : unicode.Tables) (B : bcrypt.Package)
    (currentHash newPassword confirmPassword : String)
    (hPolicy : CheckPasswordPolicy T newPassword = none)
    (hDiffer : confirmPassword ≠ newPassword) :
    ValidatePasswordChange T B currentHash newPassword confirmPassword
      = ("", some Error.ErrPasswordMismatch) := by
  have h : newPassword ≠ confirmPassword := fun e => hDiffer e.symm
  simp [ValidatePasswordChange, hPolicy, h]

/-- C13, witness: the mismatch case of the repository's test, once with the hash of
another password and once with the hash of the new password itself. -/
theorem C13_mismatch_before_reuse_witness :
    CheckPasswordPolicy Sample.tables "NewValidPassword123!" = none
      ∧ "invalid" ≠ "NewValidPassword123!"
      ∧ ValidatePassword Sample.bcrypt "NewValidPassword123!" "hash:NewValidPassword123!" = none
      ∧ ValidatePasswordChange Sample.tables Sample.bcrypt "hash:NewValidPassword123!"
          "NewValidPassword123!" "invalid" = ("", some Error.ErrPasswordMismatch) :=
  ⟨by decide, by decide, by decide,
    C13_mismatch_before_reuse Sample.tables Sample.bcrypt "hash:NewValidPassword123!"
      "NewValidPassword123!" "invalid" (by decide) (by decide)⟩

/-- C14, counterexample: the password `X` verifies against its own hash, and
`ValidatePasswordChange` answers `ErrPasswordTooShort`, not `ErrReusedPassword`. -/
theorem C14_counterexample_policy_first :
    ValidatePassword Sample.bcrypt "X" "hash:X" = none
      ∧ ValidatePasswordChange Sample.tables Sample.bcrypt "hash:X" "X" "X"
        = ("", some Error.ErrPasswordTooShort)
      ∧ (ValidatePasswordChange Sample.tables Sample.bcrypt "hash:X" "X" "X").2
        ≠ some Error.ErrReusedPassword := by
  decide

/-- C14 as amended: for every password `X` that passes the policy and every hash that `X`
verifies against, `ValidatePasswordChange` with `X` as new password and as confirmation
returns the empty hash and `ErrReusedPassword`. -/
theorem C14_reuse_of_current_password (T : unicode.Tables) (B : bcrypt.Package)
    (h X : String)
    (hPolicy : CheckPasswordPolicy T X = none)
    (hVerifies : ValidatePassword B X h = none) :
    ValidatePasswordChange T B h X X = ("", some Error.ErrReusedPassword) := by
  simp [ValidatePasswordChange, hPolicy, hVerifies]

/-- C14, witness: the reuse case of the repository's test. -/
theorem C14_reuse_of_current_password_witness :
    CheckPasswordPolicy Sample.tables "CurrentPassword123!" = none
      ∧ ValidatePassword Sample.bcrypt "CurrentPassword123!" "hash:CurrentPassword123!" = none
      ∧ ValidatePasswordChange Sample.tables Sample.bcrypt "hash:CurrentPassword123!"
          "CurrentPassword123!" "CurrentPassword123!" = ("", some Error.ErrReusedPassword) :=
  ⟨by decide, by decide,
    C14_reuse_of_current_password Sample.tables Sample.bcrypt "hash:CurrentPassword123!"
      "CurrentPassword123!" (by decide) (by decide)⟩

theorem time.day_eq : (24 : Int) * time.Hour = 86400000000000 := by
  norm_num [time.Hour, time.Minute, time.Second, time.Millisecond, time.Microsecond,
    time.Nanosecond]

/-- C15: after `InvalidateSession` run at `now` for token `t`, the registry holds `t` with
`now`, every entry of another token whose time `revokedAt` satisfies
`now - revokedAt ≤ 24h`, and nothing else; hence an entry not older than 24 hours is
still reported as invalidated after a later revocation. -/
theorem C15_registry_after_InvalidateSession (reg : SessionInvalidation) (now : Time)
    (t sid : String) :
    (InvalidateSession reg now t).invalidatedSessions sid
        = (if sid = t then some now
          else
            match reg.invalidatedSessions sid with
            | some revokedAt => if now - revokedAt ≤ 24 * time.Hour then some revokedAt else none
            | none => none)
      ∧ (∀ revokedAt, reg.invalidatedSessions sid = some revokedAt →
          now - revokedAt ≤ 24 * time.Hour →
          IsSessionInvalidated (InvalidateSession reg now t) sid = true) := by
  have hDay := time.day_eq
  have hNeg : (-24 : Int) * time.Hour = -86400000000000 := by
    have h : (-24 : Int) * time.Hour = -(24 * time.Hour) := by ring
    rw [h, hDay]
  have key : (InvalidateSession reg now t).invalidatedSessions sid
        = (if sid = t then some now
          else
            match reg.invalidatedSessions sid with
            | some revokedAt => if now - revokedAt ≤ 24 * time.Hour then some revokedAt else none
            | none => none) := by
    simp only [InvalidateSession, time.Before, time.Add, hNeg, hDay]
    by_cases h : sid = t
    · simp [h]
    · simp only [h, if_false]
      cases hr : reg.invalidatedSessions sid with
      | none => rfl
      | some r =>
        simp only [decide_eq_true_eq]
        by_cases hOld : r < now + -86400000000000
        · have h2 : ¬ now - r ≤ 86400000000000 := by linarith
          simp [hOld, h2]
        · have h2 : now - r ≤ 86400000000000 := by linarith
          simp [hOld, h2]
  refine ⟨key, ?_⟩
  intro revokedAt hHeld hYoung
  unfold IsSessionInvalidated
  rw [key]
  by_cases h : sid = t
  · simp [h]
  · simp [h, hHeld, hYoung]

/-- C15, witness: the token `tok`, invalidated at `1000`, is still held after another
token is invalidated 23 hours later, and is swept when that happens 25 hours later. -/
theorem C15_registry_after_InvalidateSession_witness :
    Sample.revoked.invalidatedSessions "tok" = some 1000
      ∧ IsSessionInvalidated
          (InvalidateSession Sample.revoked (1000 + 23 * time.Hour) "other") "tok" = true
      ∧ (InvalidateSession Sample.revoked (1000 + 25 * time.Hour) "other").invalidatedSessions
          "tok" = none :=
  ⟨by decide,
    (C15_registry_after_InvalidateSession Sample.revoked (1000 + 23 * time.Hour) "other"
      "tok").2 1000 (by decide) (by decide),
    by decide⟩

/-- A request whose session fails one of the five session preconditions is answered by
`JSONError` with 401 and one of the six session messages. -/
theorem RequireAPIKey_session_invalid (reg : SessionInvalidation)
    (GetUserByAPIKey : String → Option User) (now : Time) (method : String)
    (ctxSession : Option Session) (ctxUser : Option User) (formKey : String)
    (authorization : Option (List String))
    (hMethod : method ≠ "OPTIONS")
    (hInvalid : RequireAPIKey.sessionValid reg now ctxSession ctxUser = false) :
    ∃ m, m ∈ RequireAPIKey.sessionMessages
      ∧ RequireAPIKey reg GetUserByAPIKey now method ctxSession ctxUser formKey authorization
        = .jsonError 401 m := by
  have hMin : (15 : Int) * time.Minute = 900000000000 := by
    norm_num [time.Minute, time.Second, time.Millisecond, time.Microsecond, time.Nanosecond]
  cases ctxSession with
  | none =>
    exact ⟨"Session required for API access", by simp [RequireAPIKey.sessionMessages],
      by simp [RequireAPIKey, hMethod, StatusUnauthorized]⟩
  | some s =>
    cases hId : s.Values "id" with
    | none =>
      exact ⟨"Valid session required for API access",
        by simp [RequireAPIKey.sessionMessages],
        by simp [RequireAPIKey, hMethod, hId, StatusUnauthorized]⟩
    | some id =>
      cases hInv : tokenInvalidated reg s with
      | true =>
        exact ⟨"Session has been invalidated", by simp [RequireAPIKey.sessionMessages],
          by simp [RequireAPIKey, hMethod, hId, hInv, StatusUnauthorized]⟩
      | false =>
        have h3 : RequireAPIKey.pre3 reg (some s) = true := by
          have : RequireAPIKey.pre3 reg (some s) = !tokenInvalidated reg s := by
            simp only [RequireAPIKey.pre3, tokenInvalidated]
            split <;> simp
          rw [this, hInv]
          rfl
        cases hLA : s.Values "lastActivity" with
        | none =>
          exact ⟨"Invalid session state", by simp [RequireAPIKey.sessionMessages],
            by simp [RequireAPIKey, hMethod, hId, hInv, hLA, StatusUnauthorized]⟩
        | some la =>
          cases la with
          | time t =>
            by_cases hExp : time.Since now t > SessionTimeout
            · exact ⟨"Session expired", by simp [RequireAPIKey.sessionMessages],
                by simp [RequireAPIKey, hMethod, hId, hInv, hLA, hExp, StatusUnauthorized]⟩
            · cases ctxUser with
              | none =>
                exact ⟨"Valid session user required for API access",
                  by simp [RequireAPIKey.sessionMessages],
                  by simp [RequireAPIKey, hMethod, hId, hInv, hLA, hExp, StatusUnauthorized]⟩
              | some w =>
                exfalso
                have h4 : RequireAPIKey.pre4 now (some s) = true := by
                  simp only [RequireAPIKey.pre4, hLA, hMin, decide_eq_true_eq]
                  rw [time.Since_gt_SessionTimeout] at hExp
                  linarith
                simp [RequireAPIKey.sessionValid, RequireAPIKey.pre1, RequireAPIKey.pre2,
                  RequireAPIKey.pre5, hId, h3, h4] at hInvalid
          | int64 _ =>
            exact ⟨"Invalid session state", by simp [RequireAPIKey.sessionMessages],
              by simp [RequireAPIKey, hMethod, hId, hInv, hLA, StatusUnauthorized]⟩
          | string _ =>
            exact ⟨"Invalid session state", by simp [RequireAPIKey.sessionMessages],
              by simp [RequireAPIKey, hMethod, hId, hInv, hLA, StatusUnauthorized]⟩
          | other _ =>
            exact ⟨"Invalid session state", by simp [RequireAPIKey.sessionMessages],
              by simp [RequireAPIKey, hMethod, hId, hInv, hLA, StatusUnauthorized]⟩

/-- C16, counterexample: a request without a session and a request whose session has no
`id` are both rejected for an invalid session, and the two bodies differ. -/
theorem C16_counterexample_bodies_differ :
    RequireAPIKey.sessionValid SessionInvalidation.init 2000 none none = false
      ∧ RequireAPIKey.sessionValid SessionInvalidation.init 2000 (some Sample.fresh) none = false
      ∧ RequireAPIKey SessionInvalidation.init Sample.keys 2000 "GET" none none "" none
        = .jsonError 401 "Session required for API access"
      ∧ RequireAPIKey SessionInvalidation.init Sample.keys 2000 "GET" (some Sample.fresh) none
          "" none = .jsonError 401 "Valid session required for API access"
      ∧ (RequireAPIKey SessionInvalidation.init Sample.keys 2000 "GET" none none ""
            none).written.map (fun w => w.body)
        ≠ (RequireAPIKey SessionInvalidation.init Sample.keys 2000 "GET" (some Sample.fresh)
            none "" none).written.map (fun w => w.body) := by
  decide

/-- C16 as amended: any two non-OPTIONS requests that `RequireAPIKey` rejects for an
invalid session get the same status code 401 and the same content type; each body
carries one of the six session messages, and the two bodies are equal exactly when the
two messages are. -/
theorem C16_session_rejections_share_status
    (reg1 reg2 : SessionInvalidation) (keys1 keys2 : String → Option User)
    (now1 now2 : Time) (method1 method2 : String)
    (ctxSession1 ctxSession2 : Option Session) (ctxUser1 ctxUser2 : Option User)
    (formKey1 formKey2 : String) (authorization1 authorization2 : Option (List String))
    (hMethod1 : method1 ≠ "OPTIONS") (hMethod2 : method2 ≠ "OPTIONS")
    (hInvalid1 : RequireAPIKey.sessionValid reg1 now1 ctxSession1 ctxUser1 = false)
    (hInvalid2 : RequireAPIKey.sessionValid reg2 now2 ctxSession2 ctxUser2 = false) :
    ∃ m1 m2 w1 w2, m1 ∈ RequireAPIKey.sessionMessages ∧ m2 ∈ RequireAPIKey.sessionMessages
      ∧ RequireAPIKey reg1 keys1 now1 method1 ctxSession1 ctxUser1 formKey1 authorization1
        = .jsonError 401 m1
      ∧ RequireAPIKey reg2 keys2 now2 method2 ctxSession2 ctxUser2 formKey2 authorization2
        = .jsonError 401 m2
      ∧ (RequireAPIKey reg1 keys1 now1 method1 ctxSession1 ctxUser1 formKey1
          authorization1).written = some w1
      ∧ (RequireAPIKey reg2 keys2 now2 method2 ctxSession2 ctxUser2 formKey2
          authorization2).written = some w2
      ∧ w1.code = 401 ∧ w2.code = 401
      ∧ w1.contentType = w2.contentType
      ∧ (w1.body = w2.body ↔ m1 = m2) := by
  obtain ⟨m1, hm1, h1⟩ := RequireAPIKey_session_invalid reg1 keys1 now1 method1 ctxSession1
    ctxUser1 formKey1 authorization1 hMethod1 hInvalid1
  obtain ⟨m2, hm2, h2⟩ := RequireAPIKey_session_invalid reg2 keys2 now2 method2 ctxSession2
    ctxUser2 formKey2 authorization2 hMethod2 hInvalid2
  refine ⟨m1, m2, JSONError 401 m1, JSONError 401 m2, hm1, hm2, h1, h2, ?_, ?_, rfl, rfl,
    rfl, ?_⟩
  · rw [h1]; rfl
  · rw [h2]; rfl
  · simp [JSONError]

/-- C16, witness: a request without a session and one whose session has expired. -/
theorem C16_session_rejections_share_status_witness :
    ∃ m1 m2 w1 w2, m1 ∈ RequireAPIKey.sessionMessages ∧ m2 ∈ RequireAPIKey.sessionMessages
      ∧ RequireAPIKey SessionInvalidation.init Sample.keys 2000 "GET" none none "" none
        = .jsonError 401 m1
      ∧ RequireAPIKey SessionInvalidation.init Sample.keys (2000 + 16 * time.Minute) "POST"
          (some (Sample.full 1000 3)) (some Sample.alice) "key-alice" none
        = .jsonError 401 m2
      ∧ (RequireAPIKey SessionInvalidation.init Sample.keys 2000 "GET" none none ""
          none).written = some w1
      ∧ (RequireAPIKey SessionInvalidation.init Sample.keys (2000 + 16 * time.Minute) "POST"
          (some (Sample.full 1000 3)) (some Sample.alice) "key-alice" none).written = some w2
      ∧ w1.code = 401 ∧ w2.code = 401
      ∧ w1.contentType = w2.contentType
      ∧ (w1.body = w2.body ↔ m1 = m2) :=
  C16_session_rejections_share_status SessionInvalidation.init SessionInvalidation.init
    Sample.keys Sample.keys 2000 (2000 + 16 * time.Minute) "GET" "POST" none
    (some (Sample.full 1000 3)) none (some Sample.alice) "" "key-alice" none none
    (by decide) (by decide) (by decide) (by decide)

/-- C17: `RequireLogin` invokes the downstream handler exactly when the context user is
present and either needs no password change or requests `/reset_password`; otherwise it
answers with a 307 redirect, to `/login` when the user is absent and to
`/reset_password` when present, whose `next` parameter is the requested path (the other
query parameters are kept). -/
theorem C17_RequireLogin_gate (ctxUser : Option User) (path : String) (query : url.Values) :
    (RequireLogin ctxUser path query = .next
        ↔ ∃ u, ctxUser = some u
            ∧ (u.PasswordChangeRequired = false ∨ path = "/reset_password"))
      ∧ (ctxUser = none →
          RequireLogin ctxUser path query = .redirect "/login" (query.Set "next" path) 307)
      ∧ (∀ u, ctxUser = some u → u.PasswordChangeRequired = true →
          path ≠ "/reset_password" →
          RequireLogin ctxUser path query
            = .redirect "/reset_password" (query.Set "next" path) 307)
      ∧ (query.Set "next" path).Get "next" = path
      ∧ (∀ key, key ≠ "next" → (query.Set "next" path) key = query key) := by
  refine ⟨?_, ?_, ?_, ?_, ?_⟩
  · cases ctxUser with
    | none => simp [RequireLogin]
    | some u =>
      by_cases hP : path = "/reset_password" <;>
        cases hC : u.PasswordChangeRequired <;> simp [RequireLogin, hP, hC]
  · intro h
    subst h
    rfl
  · intro u h hC hP
    subst h
    simp [RequireLogin, hC, hP, StatusTemporaryRedirect]
  · simp [url.Values.Set, url.Values.Get]
  · intro key h
    simp [url.Values.Set, h]

/-- C17, witness: an anonymous request for `/campaigns`. -/
theorem C17_RequireLogin_gate_witness :
    RequireLogin none "/campaigns" (fun _ => [])
      = .redirect "/login" (url.Values.Set (fun _ => []) "next" "/campaigns") 307 :=
  (C17_RequireLogin_gate none "/campaigns" (fun _ => [])).2.1 rfl

/-- C18: `EnforceViewOnly` passes every GET, HEAD and OPTIONS request on, whatever the
permission lookup and the context user are; for another method with a user in context
it passes the request on exactly when the lookup of the modify permission returns true
without error, answers 403 when it returns false without error, and 500 when it returns
an error. -/
theorem C18_EnforceViewOnly_gate (HasPermission : User → String → Bool × Option String)
    (PermissionModifyObjects : String) (method : String) (ctxUser : Option User) :
    ((method = "GET" ∨ method = "HEAD" ∨ method = "OPTIONS") →
        EnforceViewOnly HasPermission PermissionModifyObjects method ctxUser = .next)
      ∧ (method ≠ "GET" → method ≠ "HEAD" → method ≠ "OPTIONS" →
          ∀ user, ctxUser = some user →
            (EnforceViewOnly HasPermission PermissionModifyObjects method ctxUser = .next
                ↔ HasPermission user PermissionModifyObjects = (true, none))
            ∧ (HasPermission user PermissionModifyObjects = (false, none) →
                EnforceViewOnly HasPermission PermissionModifyObjects method ctxUser
                  = .httpError 403)
            ∧ (∀ access err, HasPermission user PermissionModifyObjects = (access, some err) →
                EnforceViewOnly HasPermission PermissionModifyObjects method ctxUser
                  = .httpError 500)) := by
  constructor
  · intro h
    unfold EnforceViewOnly
    rcases h with h | h | h <;> simp [h]
  · intro h1 h2 h3 user hUser
    subst hUser
    unfold EnforceViewOnly
    simp only [h1, h2, h3, ne_eq, not_false_eq_true, and_self, if_true]
    rcases hP : HasPermission user PermissionModifyObjects with ⟨access, err⟩
    cases err with
    | some e => simp [StatusInternalServerError]
    | none => cases access <;> simp [StatusForbidden]

/-- C18, witness: a POST of `bob`, who lacks the modify permission. -/
theorem C18_EnforceViewOnly_gate_witness :
    "POST" ≠ "GET" ∧ "POST" ≠ "HEAD" ∧ "POST" ≠ "OPTIONS"
      ∧ Sample.permissions Sample.bob "modify_objects" = (false, none)
      ∧ EnforceViewOnly Sample.permissions "modify_objects" "POST" (some Sample.bob)
        = .httpError 403 :=
  ⟨by decide, by decide, by decide, by decide,
    ((C18_EnforceViewOnly_gate Sample.permissions "modify_objects" "POST"
      (some Sample.bob)).2 (by decide) (by decide) (by decide) Sample.bob rfl).2.1
      (by decide)⟩

/-- The part of `RequireAPIKey` that follows the five session checks (lines 259-302). -/
theorem RequireAPIKey_after_session_checks (reg : SessionInvalidation)
    (GetUserByAPIKey : String → Option User) (now : Time) (method : String)
    (ctxSession : Option Session) (ctxUser : Option User) (formKey : String)
    (authorization : Option (List String))
    (hMethod : method ≠ "OPTIONS")
    (hValid : RequireAPIKey.sessionValid reg now ctxSession ctxUser = true) :
    ∃ s id w, ctxSession = some s ∧ s.Values "id" = some id ∧ ctxUser = some w
      ∧ RequireAPIKey reg GetUserByAPIKey now method ctxSession ctxUser formKey authorization
        = (if RequireAPIKey.apiKey formKey authorization = "" then
            .jsonError 401 "API Key not set"
          else
            match GetUserByAPIKey (RequireAPIKey.apiKey formKey authorization) with
            | none => .jsonError 401 "Invalid API Key"
            | some u =>
              match id with
              | Value.int64 sessionUID =>
                if u.Id ≠ sessionUID then
                  .jsonError 403 "API key does not belong to current session user"
                else if u.Id ≠ w.Id then
                  .jsonError 403 "API key user mismatch with session user"
                else .next u u.Id (RequireAPIKey.apiKey formKey authorization)
              | _ => .panic) := by
  have hMin : (15 : Int) * time.Minute = 900000000000 := by
    norm_num [time.Minute, time.Second, time.Millisecond, time.Microsecond, time.Nanosecond]
  simp only [RequireAPIKey.sessionValid, Bool.and_eq_true] at hValid
  obtain ⟨⟨⟨⟨h1, h2⟩, h3⟩, h4⟩, h5⟩ := hValid
  cases ctxSession with
  | none => simp [RequireAPIKey.pre1] at h1
  | some s =>
    cases hId : s.Values "id" with
    | none => simp [RequireAPIKey.pre2, hId] at h2
    | some id =>
      have hInv : tokenInvalidated reg s = false := by
        have : RequireAPIKey.pre3 reg (some s) = !tokenInvalidated reg s := by
          simp only [RequireAPIKey.pre3, tokenInvalidated]
          split <;> simp
        rw [this] at h3
        simpa using h3
      cases hLA : s.Values "lastActivity" with
      | none => simp [RequireAPIKey.pre4, hLA] at h4
      | some la =>
        cases la with
        | time t =>
          have hExp : ¬ time.Since now t > SessionTimeout := by
            simp only [RequireAPIKey.pre4, hLA, hMin, decide_eq_true_eq] at h4
            rw [time.Since_gt_SessionTimeout]
            linarith
          cases ctxUser with
          | none => simp [RequireAPIKey.pre5] at h5
          | some w =>
            refine ⟨s, id, w, rfl, hId, rfl, ?_⟩
            simp only [RequireAPIKey, hMethod, hId, hInv, hLA, hExp, if_false,
              Bool.false_eq_true, StatusUnauthorized, StatusForbidden]
        | int64 _ => simp [RequireAPIKey.pre4, hLA] at h4
        | string _ => simp [RequireAPIKey.pre4, hLA] at h4
        | other _ => simp [RequireAPIKey.pre4, hLA] at h4

/-- C19: in `RequireAPIKey` a non-empty `api_key` parameter is the key and the response
does not depend on the `Authorization` header; with an empty parameter the key is the
first `Authorization` value with a leading `Bearer ` removed (the whole value when it
does not start with it, the empty string without a header), and `RequireAPIKey` answers
as if that key had been the parameter: a request that has passed the session checks
with only the header `Bearer k` is looked up with `k`; and a request that has passed the
session checks with an empty key is answered 401 "API Key not set". -/
theorem C19_api_key_extraction (reg : SessionInvalidation)
    (GetUserByAPIKey : String → Option User) (now : Time) (method : String)
    (ctxSession : Option Session) (ctxUser : Option User) (formKey : String)
    (authorization : Option (List String)) :
    (formKey ≠ "" →
        RequireAPIKey.apiKey formKey authorization = formKey
        ∧ ∀ other : Option (List String),
            RequireAPIKey reg GetUserByAPIKey now method ctxSession ctxUser formKey other
              = RequireAPIKey reg GetUserByAPIKey now method ctxSession ctxUser formKey
                  authorization)
      ∧ (∀ first rest, RequireAPIKey.apiKey "" (some (first :: rest)) = trimBearer first)
      ∧ (∀ key, trimBearer ("Bearer " ++ key) = key)
      ∧ (∀ value, ¬ "Bearer ".data.isPrefixOf value.data = true → trimBearer value = value)
      ∧ RequireAPIKey.apiKey "" none = "" ∧ RequireAPIKey.apiKey "" (some []) = ""
      ∧ (method ≠ "OPTIONS" →
          RequireAPIKey.sessionValid reg now ctxSession ctxUser = true →
          RequireAPIKey.apiKey formKey authorization = "" →
          RequireAPIKey reg GetUserByAPIKey now method ctxSession ctxUser formKey authorization
            = .jsonError 401 "API Key not set")
      ∧ (∀ first rest,
          RequireAPIKey reg GetUserByAPIKey now method ctxSession ctxUser ""
              (some (first :: rest))
            = RequireAPIKey reg GetUserByAPIKey now method ctxSession ctxUser
                (trimBearer first) none)
      ∧ (method ≠ "OPTIONS" →
          RequireAPIKey.sessionValid reg now ctxSession ctxUser = true →
          ∀ key rest, key ≠ "" → GetUserByAPIKey key = none →
            RequireAPIKey reg GetUserByAPIKey now method ctxSession ctxUser ""
                (some (("Bearer " ++ key) :: rest))
              = .jsonError 401 "Invalid API Key"
            ∧ RequireAPIKey reg GetUserByAPIKey now method ctxSession ctxUser key authorization
              = .jsonError 401 "Invalid API Key")
      ∧ (method ≠ "OPTIONS" →
          RequireAPIKey.sessionValid reg now ctxSession ctxUser = true →
          ∀ key rest owner session sessionUser, key ≠ "" →
            GetUserByAPIKey key = some owner →
            ctxSession = some session → ctxUser = some sessionUser →
            session.Values "id" = some (Value.int64 owner.Id) →
            owner.Id = sessionUser.Id →
            RequireAPIKey reg GetUserByAPIKey now method ctxSession ctxUser ""
                (some (("Bearer " ++ key) :: rest))
              = .next owner owner.Id key
            ∧ RequireAPIKey reg GetUserByAPIKey now method ctxSession ctxUser key authorization
              = .next owner owner.Id key) := by
  have hTrim : ∀ key, trimBearer ("Bearer " ++ key) = key := by
    intro key
    have h1 : ("Bearer " ++ key).data = "Bearer ".data ++ key.data := rfl
    have h2 : "Bearer ".data.isPrefixOf ("Bearer ".data ++ key.data) = true := by
      simp [List.isPrefixOf]
    have h3 : ("Bearer ".data ++ key.data).drop 7 = key.data := rfl
    unfold trimBearer
    rw [h1, if_pos h2, h3]
  have hHeader : ∀ first rest,
      RequireAPIKey.apiKey "" (some (first :: rest)) = trimBearer first := by
    intro first rest
    simp [RequireAPIKey.apiKey]
  have hForm : ∀ key other, key ≠ "" → RequireAPIKey.apiKey key other = key := by
    intro key other h
    simp [RequireAPIKey.apiKey, h]
  refine ⟨?_, hHeader, hTrim, ?_, rfl, rfl, ?_, ?_, ?_, ?_⟩
  · intro h
    refine ⟨hForm _ _ h, ?_⟩
    intro other
    unfold RequireAPIKey
    simp only [hForm _ _ h]
  · intro value h
    simp [trimBearer, h]
  · intro hMethod hValid hEmpty
    obtain ⟨s, id, w, _, _, _, hR⟩ := RequireAPIKey_after_session_checks reg GetUserByAPIKey
      now method ctxSession ctxUser formKey authorization hMethod hValid
    rw [hR, if_pos hEmpty]
  · intro first rest
    have hSame : RequireAPIKey.apiKey "" (some (first :: rest))
        = RequireAPIKey.apiKey (trimBearer first) none := by
      rw [hHeader]
      by_cases h : trimBearer first = ""
      · rw [h]
        rfl
      · rw [hForm _ _ h]
    unfold RequireAPIKey
    simp only [hSame]
  · intro hMethod hValid key rest hKey hNone
    constructor
    · obtain ⟨s, id, w, _, _, _, hR⟩ := RequireAPIKey_after_session_checks reg
        GetUserByAPIKey now method ctxSession ctxUser "" (some (("Bearer " ++ key) :: rest))
        hMethod hValid
      rw [hR, hHeader, hTrim, if_neg hKey, hNone]
    · obtain ⟨s, id, w, _, _, _, hR⟩ := RequireAPIKey_after_session_checks reg
        GetUserByAPIKey now method ctxSession ctxUser key authorization hMethod hValid
      rw [hR, hForm _ _ hKey, if_neg hKey, hNone]
  · intro hMethod hValid key rest owner session sessionUser hKey hOwner hS hU hId hSame
    constructor
    · obtain ⟨s, id, w, hs, hid, hw, hR⟩ := RequireAPIKey_after_session_checks reg
        GetUserByAPIKey now method ctxSession ctxUser "" (some (("Bearer " ++ key) :: rest))
        hMethod hValid
      rw [hS] at hs
      rw [hU] at hw
      cases hs
      cases hw
      rw [hId] at hid
      cases hid
      rw [hR, hHeader, hTrim, if_neg hKey, hOwner]
      simp [hSame]
    · obtain ⟨s, id, w, hs, hid, hw, hR⟩ := RequireAPIKey_after_session_checks reg
        GetUserByAPIKey now method ctxSession ctxUser key authorization hMethod hValid
      rw [hS] at hs
      rw [hU] at hw
      cases hs
      cases hw
      rw [hId] at hid
      cases hid
      rw [hR, hForm _ _ hKey, if_neg hKey, hOwner]
      simp [hSame]

/-- C19, witness: `alice` sends her key as parameter together with a header that holds
the key of `bob`; she sends only the header `Bearer key-alice`; and she sends the bare
header `Bearer ` without a parameter. -/
theorem C19_api_key_extraction_witness :
    RequireAPIKey.apiKey "key-alice" (some ["Bearer key-bob"]) = "key-alice"
      ∧ RequireAPIKey SessionInvalidation.init Sample.keys 2000 "GET"
          (some (Sample.full 1000 3)) (some Sample.alice) "key-alice" (some ["Bearer key-bob"])
        = .next Sample.alice 1 "key-alice"
      ∧ RequireAPIKey SessionInvalidation.init Sample.keys 2000 "GET"
          (some (Sample.full 1000 3)) (some Sample.alice) "" (some ["Bearer key-alice"])
        = .next Sample.alice 1 "key-alice"
      ∧ RequireAPIKey SessionInvalidation.init Sample.keys 2000 "GET"
          (some (Sample.full 1000 3)) (some Sample.alice) "" (some ["Bearer "])
        = .jsonError 401 "API Key not set" :=
  ⟨((C19_api_key_extraction SessionInvalidation.init Sample.keys 2000 "GET"
      (some (Sample.full 1000 3)) (some Sample.alice) "key-alice"
      (some ["Bearer key-bob"])).1 (by decide)).1,
    ((C19_api_key_extraction SessionInvalidation.init Sample.keys 2000 "GET"
      (some (Sample.full 1000 3)) (some Sample.alice) "key-alice"
      (some ["Bearer key-bob"])).2.2.2.2.2.2.2.2.2 (by decide) (by decide)
      "key-alice" [] Sample.alice (Sample.full 1000 3) Sample.alice (by decide) (by decide)
      rfl rfl (by decide) rfl).2,
    ((C19_api_key_extraction SessionInvalidation.init Sample.keys 2000 "GET"
      (some (Sample.full 1000 3)) (some Sample.alice) "" none).2.2.2.2.2.2.2.2.2
      (by decide) (by decide)
      "key-alice" [] Sample.alice (Sample.full 1000 3) Sample.alice (by decide) (by decide)
      rfl rfl (by decide) rfl).1,
    (C19_api_key_extraction SessionInvalidation.init Sample.keys 2000 "GET"
      (some (Sample.full 1000 3)) (some Sample.alice) "" (some ["Bearer "])).2.2.2.2.2.2.1
      (by decide) (by decide) (by decide)⟩

/-- C20: for a session with an `id` whose lookup succeeds, no revoked token, a timestamp
`lastActivity` with `now - lastActivity ≤ 15` minutes and a `passwordVersion` equal to
the user's current version, `GetContext` binds that user and hands over the session with
`lastActivity` set to `now` and every other key, `id`, `sessionToken` and
`passwordVersion` among them, unchanged. -/
theorem C20_valid_session_is_refreshed (reg : SessionInvalidation)
    (GetUser : Int → Option User) (now : Time) (storeGet : Option Session)
    (storeNew : Session) (i : Int) (u : User) (t : Time)
    (hId : (GetContext.session storeGet storeNew).Values "id" = some (Value.int64 i))
    (hToken : tokenInvalidated reg (GetContext.session storeGet storeNew) = false)
    (hLast : (GetContext.session storeGet storeNew).Values "lastActivity" = some (Value.time t))
    (hFresh : now - t ≤ 15 * time.Minute)
    (hUser : GetUser i = some u)
    (hVersion : (GetContext.session storeGet storeNew).Values "passwordVersion"
      = some (Value.int64 u.PasswordVersion)) :
    ∃ session, GetContext reg GetUser now storeGet storeNew = .served session (some u)
      ∧ session.Values "lastActivity" = some (Value.time now)
      ∧ session.Values "id" = (GetContext.session storeGet storeNew).Values "id"
      ∧ session.Values "sessionToken"
        = (GetContext.session storeGet storeNew).Values "sessionToken"
      ∧ session.Values "passwordVersion"
        = (GetContext.session storeGet storeNew).Values "passwordVersion"
      ∧ (∀ key, key ≠ "lastActivity" →
          session.Values key = (GetContext.session storeGet storeNew).Values key)
      ∧ session.MaxAge = (GetContext.session storeGet storeNew).MaxAge := by
  have hMin : (15 : Int) * time.Minute = 900000000000 := by
    norm_num [time.Minute, time.Second, time.Millisecond, time.Microsecond, time.Nanosecond]
  have hExp : ¬ time.Since now t > SessionTimeout := by
    rw [time.Since_gt_SessionTimeout]
    rw [hMin] at hFresh
    linarith
  refine ⟨{ GetContext.session storeGet storeNew with
      Values := (GetContext.session storeGet storeNew).Values.set "lastActivity"
        (Value.time now) }, ?_, ?_, ?_, ?_, ?_, ?_, rfl⟩
  · unfold GetContext
    simp [hToken, hId, hLast, hExp, hUser, hVersion]
  · simp [ValueMap.set]
  · simp [ValueMap.set]
  · simp [ValueMap.set]
  · simp [ValueMap.set]
  · intro key h
    simp [ValueMap.set, h]

/-- C20, witness: the full session of `alice`, last active at `1000` and seen at `2000`. -/
theorem C20_valid_session_is_refreshed_witness :
    ∃ session, GetContext SessionInvalidation.init Sample.users 2000
          (some (Sample.full 1000 3)) Sample.fresh = .served session (some Sample.alice)
      ∧ session.Values "lastActivity" = some (Value.time 2000)
      ∧ session.Values "id" = some (Value.int64 1)
      ∧ session.Values "sessionToken" = some (Value.string "tok")
      ∧ session.Values "passwordVersion" = some (Value.int64 3) := by
  obtain ⟨session, h1, h2, h3, h4, h5, _⟩ :=
    C20_valid_session_is_refreshed SessionInvalidation.init Sample.users 2000
      (some (Sample.full 1000 3)) Sample.fresh 1 Sample.alice 1000
      (by decide) (by decide) (by decide) (by decide) (by decide) (by decide)
  exact ⟨session, h1, h2, h3.trans (by decide), h4.trans (by decide), h5.trans (by decide)⟩

/-- C21, counterexample: a session of `alice` without `lastActivity`, with a token that
is not revoked and the stale password version `2`: the user is nil, and the session
handed to the handler still carries `sessionToken`. -/
theorem C21_counterexample_token_kept :
    (GetContext.session (some (Sample.noActivity 2)) Sample.fresh).Values "lastActivity" = none
      ∧ tokenInvalidated SessionInvalidation.init
          (GetContext.session (some (Sample.noActivity 2)) Sample.fresh) = false
      ∧ (GetContext.session (some (Sample.noActivity 2)) Sample.fresh).Values "passwordVersion"
          = some (Value.int64 2)
      ∧ Sample.users 1 = some Sample.alice ∧ Sample.alice.PasswordVersion = 3
      ∧ (GetContext SessionInvalidation.init Sample.users 2000 (some (Sample.noActivity 2))
          Sample.fresh).user = none
      ∧ (GetContext SessionInvalidation.init Sample.users 2000 (some (Sample.noActivity 2))
          Sample.fresh).session.map (fun s => s.Values "sessionToken")
        = some (some (Value.string "tok")) := by
  decide

/-- C21 as amended: for a session with an `id` whose lookup succeeds, no `lastActivity`,
no revoked token and a `passwordVersion` that is not the user's current one,
`GetContext` runs the handler with a nil user and with `id`, `lastActivity` and
`passwordVersion` removed from the session; `sessionToken` and every other key are
kept. -/
theorem C21_stale_version_without_activity (reg : SessionInvalidation)
    (GetUser : Int → Option User) (now : Time) (storeGet : Option Session)
    (storeNew : Session) (i : Int) (u : User) (v : Value)
    (hId : (GetContext.session storeGet storeNew).Values "id" = some (Value.int64 i))
    (hLast : (GetContext.session storeGet storeNew).Values "lastActivity" = none)
    (hToken : tokenInvalidated reg (GetContext.session storeGet storeNew) = false)
    (hUser : GetUser i = some u)
    (hVersion : (GetContext.session storeGet storeNew).Values "passwordVersion" = some v)
    (hStale : v ≠ Value.int64 u.PasswordVersion) :
    GetContext reg GetUser now storeGet storeNew
        = .served (GetContext.session storeGet storeNew).clearIdentity none
      ∧ (GetContext.session storeGet storeNew).clearIdentity.Values "id" = none
      ∧ (GetContext.session storeGet storeNew).clearIdentity.Values "lastActivity" = none
      ∧ (GetContext.session storeGet storeNew).clearIdentity.Values "passwordVersion" = none
      ∧ (GetContext.session storeGet storeNew).clearIdentity.Values "sessionToken"
        = (GetContext.session storeGet storeNew).Values "sessionToken"
      ∧ (∀ key, key ≠ "id" → key ≠ "lastActivity" → key ≠ "passwordVersion" →
          (GetContext.session storeGet storeNew).clearIdentity.Values key
            = (GetContext.session storeGet storeNew).Values key) := by
  refine ⟨?_, ?_, ?_, ?_, ?_, ?_⟩
  · unfold GetContext
    generalize GetContext.session storeGet storeNew = s at hId hLast hToken hVersion ⊢
    cases v with
    | int64 w =>
      have hw : w ≠ u.PasswordVersion := fun h => hStale (by rw [h])
      simp [hToken, hId, hLast, hUser, hVersion, hw]
    | string _ => simp [hToken, hId, hLast, hUser, hVersion]
    | time _ => simp [hToken, hId, hLast, hUser, hVersion]
    | other _ => simp [hToken, hId, hLast, hUser, hVersion]
  · simp [Session.clearIdentity, ValueMap.delete]
  · simp [Session.clearIdentity, ValueMap.delete]
  · simp [Session.clearIdentity, ValueMap.delete]
  · simp [Session.clearIdentity, ValueMap.delete]
  · intro key h1 h2 h3
    simp [Session.clearIdentity, ValueMap.delete, h1, h2, h3]

/-- C21, witness: the session of `alice` without `lastActivity`, stamped with version
`2`. -/
theorem C21_stale_version_without_activity_witness :
    (GetContext SessionInvalidation.init Sample.users 2000 (some (Sample.noActivity 2))
        Sample.fresh).user = none
      ∧ (GetContext.session (some (Sample.noActivity 2)) Sample.fresh).clearIdentity.Values
          "id" = none := by
  have h := C21_stale_version_without_activity SessionInvalidation.init Sample.users 2000
    (some (Sample.noActivity 2)) Sample.fresh 1 Sample.alice (Value.int64 2)
    (by decide) (by decide) (by decide) (by decide) (by decide) (by decide)
  exact ⟨by rw [h.1]; rfl, h.2.1⟩

/-- C22: for a session with an `id`, no `lastActivity`, no revoked token and no
`passwordVersion`: when the lookup of the `id` succeeds, `GetContext` binds that user and
hands over the session with `passwordVersion` set to the user's current version and
`lastActivity` set to `now` (every other key unchanged); when the lookup fails the user
is nil. -/
theorem C22_session_without_version_is_stamped (reg : SessionInvalidation)
    (GetUser : Int → Option User) (now : Time) (storeGet : Option Session)
    (storeNew : Session) (i : Int)
    (hId : (GetContext.session storeGet storeNew).Values "id" = some (Value.int64 i))
    (hLast : (GetContext.session storeGet storeNew).Values "lastActivity" = none)
    (hToken : tokenInvalidated reg (GetContext.session storeGet storeNew) = false)
    (hVersion : (GetContext.session storeGet storeNew).Values "passwordVersion" = none) :
    (∀ u, GetUser i = some u →
        ∃ session, GetContext reg GetUser now storeGet storeNew = .served session (some u)
          ∧ session.Values "passwordVersion" = some (Value.int64 u.PasswordVersion)
          ∧ session.Values "lastActivity" = some (Value.time now)
          ∧ (∀ key, key ≠ "passwordVersion" → key ≠ "lastActivity" →
              session.Values key = (GetContext.session storeGet storeNew).Values key))
      ∧ (GetUser i = none →
          GetContext reg GetUser now storeGet storeNew
            = .served (GetContext.session storeGet storeNew) none) := by
  constructor
  · intro u hUser
    refine ⟨{ GetContext.session storeGet storeNew with
        Values := ((GetContext.session storeGet storeNew).Values.set "passwordVersion"
          (Value.int64 u.PasswordVersion)).set "lastActivity" (Value.time now) },
      ?_, ?_, ?_, ?_⟩
    · unfold GetContext
      simp [hToken, hId, hLast, hUser, hVersion]
    · simp [ValueMap.set]
    · simp [ValueMap.set]
    · intro key h1 h2
      simp [ValueMap.set, h1, h2]
  · intro hUser
    unfold GetContext
    simp [hToken, hId, hLast, hUser]

/-- C22, witness: the session that carries only the `id` of `alice`. -/
theorem C22_session_without_version_is_stamped_witness :
    (GetContext SessionInvalidation.init Sample.users 2000 (some Sample.idOnly)
        Sample.fresh).user = some Sample.alice
      ∧ (GetContext SessionInvalidation.init Sample.users 2000 (some Sample.idOnly)
          Sample.fresh).session.map (fun s => s.Values "passwordVersion")
        = some (some (Value.int64 3)) := by
  obtain ⟨session, h1, h2, _⟩ :=
    (C22_session_without_version_is_stamped SessionInvalidation.init Sample.users 2000
      (some Sample.idOnly) Sample.fresh 1 (by decide) (by decide) (by decide) (by decide)).1
      Sample.alice (by decide)
  rw [h1]
  exact ⟨rfl, by simp [GetContext.Result.session, h2, Sample.alice]⟩

/-- C23, counterexample: when the lookup of the `id` fails the user is nil and the
session handed to the handler still carries `id`, `lastActivity` and `passwordVersion`;
and a session without `id` keeps its `lastActivity` and `passwordVersion`. -/
theorem C23_counterexample_lookup_failure :
    (Sample.users 99 = none
        ∧ (GetContext SessionInvalidation.init Sample.users 2000 (some Sample.unknownUser)
            Sample.fresh).user = none
        ∧ (GetContext SessionInvalidation.init Sample.users 2000 (some Sample.unknownUser)
            Sample.fresh).session.map (fun s => s.Values "id") = some (some (Value.int64 99))
        ∧ (GetContext SessionInvalidation.init Sample.users 2000 (some Sample.unknownUser)
            Sample.fresh).session.map (fun s => s.Values "lastActivity")
          = some (some (Value.time 1000))
        ∧ (GetContext SessionInvalidation.init Sample.users 2000 (some Sample.unknownUser)
            Sample.fresh).session.map (fun s => s.Values "passwordVersion")
          = some (some (Value.int64 1)))
      ∧ ((GetContext SessionInvalidation.init Sample.users 2000 (some Sample.leftover)
            Sample.fresh).user = none
        ∧ (GetContext SessionInvalidation.init Sample.users 2000 (some Sample.leftover)
            Sample.fresh).session.map (fun s => s.Values "lastActivity")
          = some (some (Value.time 1000))) := by
  decide

/-- C23 as amended: when `GetContext` runs the handler with a nil user, the session it
hands over either carries none of `id`, `lastActivity` and `passwordVersion`, or is the
session as it was loaded, and then that session has no `id` or the lookup of its `id`
failed. -/
theorem C23_anonymous_session (reg : SessionInvalidation) (GetUser : Int → Option User)
    (now : Time) (storeGet : Option Session) (storeNew : Session) (handed : Session)
    (hNil : GetContext reg GetUser now storeGet storeNew = .served handed none) :
    (handed.Values "id" = none ∧ handed.Values "lastActivity" = none
        ∧ handed.Values "passwordVersion" = none)
      ∨ (handed = GetContext.session storeGet storeNew
        ∧ ((GetContext.session storeGet storeNew).Values "id" = none
          ∨ ∃ i, (GetContext.session storeGet storeNew).Values "id" = some (Value.int64 i)
              ∧ GetUser i = none)) := by
  unfold GetContext at hNil
  generalize GetContext.session storeGet storeNew = s at hNil ⊢
  have hClear : handed = s.clearIdentity →
      handed.Values "id" = none ∧ handed.Values "lastActivity" = none
        ∧ handed.Values "passwordVersion" = none := by
    intro h
    subst h
    simp [Session.clearIdentity, ValueMap.delete]
  have hRevoked : handed = s.clearRevoked →
      handed.Values "id" = none ∧ handed.Values "lastActivity" = none
        ∧ handed.Values "passwordVersion" = none := by
    intro h
    subst h
    simp [Session.clearRevoked, ValueMap.delete]
  by_cases hInv : tokenInvalidated reg s = true
  · simp [hInv] at hNil
    exact Or.inl (hRevoked hNil.symm)
  simp only [hInv] at hNil
  cases hId : s.Values "id" with
  | none =>
    simp [hId] at hNil
    exact Or.inr ⟨hNil.symm, Or.inl rfl⟩
  | some id =>
    simp only [hId] at hNil
    cases hLA : s.Values "lastActivity" with
    | some la =>
      simp only [hLA] at hNil
      cases la with
      | time t =>
        simp only [] at hNil
        by_cases hExp : time.Since now t > SessionTimeout
        · simp [hExp] at hNil
          exact Or.inl (hClear hNil.symm)
        · simp only [hExp] at hNil
          cases id with
          | int64 i =>
            cases hU : GetUser i with
            | none =>
              simp [hU] at hNil
              exact Or.inr ⟨hNil.symm, Or.inr ⟨i, rfl, hU⟩⟩
            | some u1 =>
              simp only [hU] at hNil
              cases hPV : s.Values "passwordVersion" with
              | none =>
                simp [hPV] at hNil
                exact Or.inl (hClear hNil.symm)
              | some pv =>
                cases pv with
                | int64 v =>
                  simp only [hPV] at hNil
                  by_cases hv : v = u1.PasswordVersion
                  · simp [hv] at hNil
                  · simp [hv] at hNil
                    exact Or.inl (hClear hNil.symm)
                | string _ =>
                  simp [hPV] at hNil
                  exact Or.inl (hClear hNil.symm)
                | time _ =>
                  simp [hPV] at hNil
                  exact Or.inl (hClear hNil.symm)
                | other _ =>
                  simp [hPV] at hNil
                  exact Or.inl (hClear hNil.symm)
          | string _ => simp at hNil
          | time _ => simp at hNil
          | other _ => simp at hNil
      | int64 _ =>
        simp at hNil
        exact Or.inl (hClear hNil.symm)
      | string _ =>
        simp at hNil
        exact Or.inl (hClear hNil.symm)
      | other _ =>
        simp at hNil
        exact Or.inl (hClear hNil.symm)
    | none =>
      simp only [hLA] at hNil
      cases id with
      | int64 i =>
        cases hU : GetUser i with
        | none =>
          simp [hU] at hNil
          exact Or.inr ⟨hNil.symm, Or.inr ⟨i, rfl, hU⟩⟩
        | some u1 =>
          simp only [hU] at hNil
          cases hPV : s.Values "passwordVersion" with
          | none => simp [hPV] at hNil
          | some pv =>
            cases pv with
            | int64 v =>
              simp only [hPV] at hNil
              by_cases hv : v = u1.PasswordVersion
              · simp [hv] at hNil
              · simp [hv] at hNil
                exact Or.inl (hClear hNil.symm)
            | string _ =>
              simp [hPV] at hNil
              exact Or.inl (hClear hNil.symm)
            | time _ =>
              simp [hPV] at hNil
              exact Or.inl (hClear hNil.symm)
            | other _ =>
              simp [hPV] at hNil
              exact Or.inl (hClear hNil.symm)
      | string _ => simp at hNil
      | time _ => simp at hNil
      | other _ => simp at hNil

/-- C23, witness: the expired session of `alice` is handed over without the identity
fields. -/
theorem C23_anonymous_session_witness :
    GetContext SessionInvalidation.init Sample.users (1000 + 16 * time.Minute)
        (some (Sample.full 1000 3)) Sample.fresh
      = .served (Sample.full 1000 3).clearIdentity none
    ∧ ((Sample.full 1000 3).clearIdentity.Values "id" = none
        ∧ (Sample.full 1000 3).clearIdentity.Values "lastActivity" = none
        ∧ (Sample.full 1000 3).clearIdentity.Values "passwordVersion" = none) := by
  have h : GetContext SessionInvalidation.init Sample.users (1000 + 16 * time.Minute)
      (some (Sample.full 1000 3)) Sample.fresh
        = .served (Sample.full 1000 3).clearIdentity none := by
    rfl
  refine ⟨h, ?_⟩
  rcases C23_anonymous_session SessionInvalidation.init Sample.users
    (1000 + 16 * time.Minute) (some (Sample.full 1000 3)) Sample.fresh
    (Sample.full 1000 3).clearIdentity h with h1 | h2
  · exact h1
  · exact ⟨by decide, by decide, by decide⟩

/-- C24, the code at the failing input: with a nil context user `RequirePermission`
panics for every permission and every lookup, and so does `EnforceViewOnly` on a POST,
a PUT and a DELETE. -/
theorem C24_guards_panic_on_nil_user :
    (∀ (HasPermission : User → String → Bool × Option String) (perm : String),
        RequirePermission HasPermission perm none = .panic)
      ∧ (∀ (HasPermission : User → String → Bool × Option String) (modify : String),
          EnforceViewOnly HasPermission modify "POST" none = .panic
          ∧ EnforceViewOnly HasPermission modify "PUT" none = .panic
          ∧ EnforceViewOnly HasPermission modify "DELETE" none = .panic) := by
  constructor
  · intro _ _
    rfl
  · intro _ _
    simp [EnforceViewOnly]

/-- Inside the range where the product fits, `GetSessionTimeout` returns the parsed
number of minutes, a strictly positive duration. -/
theorem GetSessionTimeout_in_range (timeoutStr : String) (n : Int)
    (hParse : strconv.Atoi timeoutStr = some n) (hPos : 0 < n) (hFit : n ≤ 153722867) :
    GetSessionTimeout timeoutStr = n * time.Minute ∧ 0 < GetSessionTimeout timeoutStr := by
  have hEmpty : strconv.Atoi "" = none := by decide
  have hNe : timeoutStr ≠ "" := by
    intro h
    rw [h, hEmpty] at hParse
    exact absurd hParse (by simp)
  have hMin : time.Minute = 60000000000 := by
    norm_num [time.Minute, time.Second, time.Millisecond, time.Microsecond, time.Nanosecond]
  have hWrap : int64.wrap (n * 60000000000) = n * 60000000000 := by
    unfold int64.wrap
    norm_num
    omega
  have hEq : GetSessionTimeout timeoutStr = n * time.Minute := by
    unfold GetSessionTimeout
    simp only [hNe, ne_eq, not_false_eq_true, if_true, hParse, gt_iff_lt, hPos, hMin, hWrap]
  refine ⟨hEq, ?_⟩
  rw [hEq, hMin]
  linarith

/-- C25, the code at the failing inputs: the value `153722868` parses as a positive
integer and the returned duration is negative; the value `9007199254740992` parses as a
positive integer and the returned duration is zero; `153722867` is the largest value
whose product with a minute fits. -/
theorem C25_timeout_overflows :
    (strconv.Atoi "153722868" = some 153722868
        ∧ GetSessionTimeout "153722868" = -9223371993709551616
        ∧ GetSessionTimeout "153722868" < 0
        ∧ GetSessionTimeout "153722868" ≠ 153722868 * time.Minute)
      ∧ (strconv.Atoi "9007199254740992" = some 9007199254740992
        ∧ GetSessionTimeout "9007199254740992" = 0)
      ∧ GetSessionTimeout "153722867" = 153722867 * time.Minute
      ∧ GetSessionTimeout "" = 15 * time.Minute
      ∧ GetSessionTimeout "0" = 15 * time.Minute
      ∧ GetSessionTimeout "-3" = 15 * time.Minute
      ∧ GetSessionTimeout "abc" = 15 * time.Minute := by
  decide

end Gophish
